import Mathlib

/-!
Verification development for the `mypyllant` Home Assistant component
(`custom_components/mypyllant/sensor.py`).

The Python module is shallowly embedded: the nested API response objects
(systems, zones, circuits, domestic hot water units, devices, daily
energy-data buckets) become Lean structures, floats become rationals,
`None`-able values become `Option`, Python dicts become association lists,
and operations that can raise (`list[i]`, `dict[key]` on a missing key,
attribute access on `None`) return a `PyResult`.
-/

/-- Result of a Python expression that may raise (IndexError, KeyError,
TypeError on subscripting `None`). -/
inductive PyResult (α : Type) where
  | ok : α → PyResult α
  | exn : PyResult α
deriving DecidableEq

/-- Sequencing of fallible Python evaluation steps. -/
def PyResult.bind {α β : Type} : PyResult α → (α → PyResult β) → PyResult β
  | .ok a, f => f a
  | .exn, _ => .exn

/-- Python values appearing as sensor `native_value` results: floats
(embedded as rationals) and strings. -/
inductive PyVal where
  | num : ℚ → PyVal
  | str : String → PyVal
deriving DecidableEq

/-- Python `l[i]` for a non-negative index: the element, or IndexError. -/
def pyListIndex {α : Type} (l : List α) (i : ℕ) : PyResult α :=
  match l.get? i with
  | some x => .ok x
  | none => .exn

/-- First-match lookup in an association list; embeds Python `dict.get`
(and, combined with `PyResult`, `dict[key]`). -/
def assocLookup {α : Type} : List (String × α) → String → Option α
  | [], _ => none
  | (k, v) :: rest, key => if k = key then some v else assocLookup rest key

/-- Python truthiness of an `Optional[float]`: `None` and `0` are falsy. -/
def truthyQ : Option ℚ → Bool
  | none => false
  | some q => decide (q ≠ 0)

/-- Round half to even (Python `round` tie-breaking) to an integer. -/
def roundHalfEven (q : ℚ) : ℤ :=
  let n : ℤ := ⌊q⌋
  let f : ℚ := q - n
  if f < 1/2 then n
  else if 1/2 < f then n + 1
  else if n % 2 = 0 then n else n + 1

/-- Python `round(q, d)`: round half to even at `d` decimal places. -/
def pyRoundTo (d : ℕ) (q : ℚ) : ℚ :=
  (roundHalfEven (q * 10 ^ d) : ℚ) / 10 ^ d

/-- Python `enumerate` starting at `n`. -/
def pyEnumerateFrom {α : Type} (n : ℕ) : List α → List (ℕ × α)
  | [] => []
  | x :: xs => (n, x) :: pyEnumerateFrom (n + 1) xs

/-- Python `enumerate`. -/
def pyEnumerate {α : Type} (l : List α) : List (ℕ × α) :=
  pyEnumerateFrom 0 l

/-- Capitalise one word the way Python `str.title` does: first character
uppercased, the rest lowercased. -/
def titleWord (w : String) : String :=
  match w.data with
  | [] => ""
  | c :: cs => String.mk (c.toUpper :: cs.map Char.toLower)

/-- Python `str.title` on space-separated words. -/
def pyTitle (s : String) : String :=
  String.intercalate " " ((s.splitOn " ").map titleWord)

/-- Python dict merge `a | b`: keys of `a` in order with values overridden
by `b`, then the keys only in `b`. -/
def dictMerge (a b : List (String × PyVal)) : List (String × PyVal) :=
  (a.map (fun p => match assocLookup b p.1 with
    | some v => (p.1, v)
    | none => p))
  ++ b.filter (fun p => (assocLookup a p.1).isNone)

/-- Number of occurrences of `a` in a list. -/
def countOcc {α : Type} [DecidableEq α] (a : α) : List α → ℕ
  | [] => 0
  | x :: xs => (if x = a then 1 else 0) + countOcc a xs

/-! ## Data model (from `myPyllant.models` as consumed by `sensor.py`) -/

/-- `myPyllant` `Home` (the fields read by `sensor.py`). -/
structure Home where
  name : String
  nomenclature : String
  firmware_version : String
  extra_fields : List (String × PyVal)
deriving DecidableEq

/-- `myPyllant` `Device` (the fields read by `sensor.py`).
`operational_data` is a dict of dicts: key to a record that itself maps
`"value"` etc. to a value. -/
structure Device where
  name : String
  name_display : String
  device_uuid : String
  brand_name : String
  product_name_display : String
  operational_data : List (String × List (String × PyVal))
deriving DecidableEq

/-- `myPyllant` `Zone`; enum attributes such as
`heating.operation_mode_heating.display_value` are flattened to the
display string that `sensor.py` reads. -/
structure Zone where
  name : String
  index : ℕ
  current_room_temperature : Option ℚ
  current_room_humidity : Option ℚ
  desired_room_temperature_setpoint_heating : Option ℚ
  desired_room_temperature_setpoint_cooling : Option ℚ
  desired_room_temperature_setpoint : Option ℚ
  operation_mode_heating_display : String
  heating_state_display : String
  current_special_function_display : String
  associated_circuit_index : Option ℕ
  is_active : Option Bool
deriving DecidableEq

/-- `myPyllant` `Circuit` (the fields read by `sensor.py`). -/
structure Circuit where
  index : ℕ
  circuit_state : Option String
  current_circuit_flow_temperature : Option ℚ
  heating_curve : Option ℚ
  min_flow_temperature_setpoint : Option ℚ
  extra_fields : List (String × PyVal)
deriving DecidableEq

/-- `myPyllant` `DomesticHotWater` (the fields read by `sensor.py`). -/
structure DomesticHotWater where
  index : ℕ
  current_dhw_temperature : Option ℚ
  tapping_setpoint : Option ℚ
  operation_mode_dhw_display : String
  current_special_function_display : String
deriving DecidableEq

/-- `myPyllant` `System` (the fields read by `sensor.py`). -/
structure System where
  id : String
  home : Home
  brand_name : String
  extra_fields : List (String × PyVal)
  outdoor_temperature : Option ℚ
  water_pressure : Option ℚ
  devices : List Device
  zones : List Zone
  circuits : List Circuit
  domestic_hot_water : List DomesticHotWater
deriving DecidableEq

/-- `myPyllant` `DeviceDataBucket` (the field read by `sensor.py`). -/
structure DeviceDataBucket where
  value : Option ℚ
deriving DecidableEq

/-- `myPyllant` `DeviceData` (the fields read by `sensor.py`). -/
structure DeviceData where
  device : Option Device
  energy_type : Option String
  operation_mode : String
  data : List DeviceDataBucket
deriving DecidableEq

/-- One entry of the daily-data coordinator's dict:
`{"home_name": ..., "devices_data": [[DeviceData, ...], ...]}`. -/
structure DailySystem where
  home_name : String
  devices_data : List (List DeviceData)
deriving DecidableEq

/-- The framework `SystemCoordinator`. `data` is `None` until the first
refresh, then a list of systems. `last_update_success` stands for the
rest of the framework coordinator state, which `sensor.py` never reads. -/
structure SystemCoordinator where
  data : Option (List System)
  last_update_success : Bool
deriving DecidableEq

/-- The framework `DailyDataCoordinator`. `data` is `None` until the first
refresh, then a dict from system id to daily data, embedded as an
association list in insertion order. `last_update_success` stands for the
rest of the framework coordinator state, which `sensor.py` never reads. -/
structure DailyDataCoordinator where
  data : Option (List (String × DailySystem))
  last_update_success : Bool
deriving DecidableEq

/-! ## Constants and helpers from the component -/

/-- Modelled from the spec: `DOMAIN` lives in `const.py`, which is not in
the source tree; it is the component's Home Assistant domain name. -/
def DOMAIN : String := "mypyllant"

/-- Home Assistant unit constant `ENERGY_WATT_HOUR`. -/
def ENERGY_WATT_HOUR : String := "Wh"

/-- `DATA_UNIT_MAP` from `sensor.py`: the five known energy-type keys,
each mapped to the watt-hour unit constant. -/
def DATA_UNIT_MAP : List (String × String) :=
  [("CONSUMED_ELECTRICAL_ENERGY", ENERGY_WATT_HOUR),
   ("EARNED_ENVIRONMENT_ENERGY", ENERGY_WATT_HOUR),
   ("HEAT_GENERATED", ENERGY_WATT_HOUR),
   ("CONSUMED_PRIMARY_ENERGY", ENERGY_WATT_HOUR),
   ("EARNED_SOLAR_ENERGY", ENERGY_WATT_HOUR)]

/-- Modelled from the spec: `get_name_prefix` lives in `utils.py`, which is
not in the source tree; the spec describes it only as string formatting of
a display-name prefix from the home name. -/
def namePrefixOf (homeName : String) : String := homeName ++ " "

/-- Modelled from the spec: `get_unique_id_prefix` lives in `utils.py`,
which is not in the source tree; the spec describes it only as string
formatting of a unique-identifier prefix from the system id. -/
def uniqueIdPrefixOf (systemId : String) : String := systemId ++ "_"

/-! ## Sensor entity instances

Each constructor records the sensor class instantiated by the factory
functions together with its stored indices. -/

/-- A sensor instantiated by `create_system_sensors`, with its stored
indices. Constructor names follow the Python class names. -/
inductive SensorInst where
  | systemOutdoorTemperature (index : ℕ)
  | systemWaterPressure (index : ℕ)
  | homeEntity (index : ℕ)
  | systemDeviceWaterPressure (index device_index : ℕ)
  | zoneDesiredRoomTemperatureSetpoint (index zone_index : ℕ)
  | zoneCurrentRoomTemperature (index zone_index : ℕ)
  | zoneHumidity (index zone_index : ℕ)
  | zoneHeatingOperatingMode (index zone_index : ℕ)
  | zoneHeatingState (index zone_index : ℕ)
  | zoneCurrentSpecialFunction (index zone_index : ℕ)
  | circuitState (index circuit_index : ℕ)
  | circuitFlowTemperature (index circuit_index : ℕ)
  | circuitHeatingCurve (index circuit_index : ℕ)
  | circuitMinFlowTemperatureSetpoint (index circuit_index : ℕ)
  | domesticHotWaterTankTemperature (index dhw_index : ℕ)
  | domesticHotWaterSetPoint (index dhw_index : ℕ)
  | domesticHotWaterOperationMode (index dhw_index : ℕ)
  | domesticHotWaterCurrentSpecialFunction (index dhw_index : ℕ)
deriving DecidableEq

/-- The system index stored in a `SensorInst`. -/
def SensorInst.sysIdx : SensorInst → ℕ
  | .systemOutdoorTemperature i => i
  | .systemWaterPressure i => i
  | .homeEntity i => i
  | .systemDeviceWaterPressure i _ => i
  | .zoneDesiredRoomTemperatureSetpoint i _ => i
  | .zoneCurrentRoomTemperature i _ => i
  | .zoneHumidity i _ => i
  | .zoneHeatingOperatingMode i _ => i
  | .zoneHeatingState i _ => i
  | .zoneCurrentSpecialFunction i _ => i
  | .circuitState i _ => i
  | .circuitFlowTemperature i _ => i
  | .circuitHeatingCurve i _ => i
  | .circuitMinFlowTemperatureSetpoint i _ => i
  | .domesticHotWaterTankTemperature i _ => i
  | .domesticHotWaterSetPoint i _ => i
  | .domesticHotWaterOperationMode i _ => i
  | .domesticHotWaterCurrentSpecialFunction i _ => i

/-- The domestic-hot-water index stored in a `SensorInst` (0 for the
constructors that do not carry one). -/
def SensorInst.dhwIdx : SensorInst → ℕ
  | .domesticHotWaterTankTemperature _ j => j
  | .domesticHotWaterSetPoint _ j => j
  | .domesticHotWaterOperationMode _ j => j
  | .domesticHotWaterCurrentSpecialFunction _ j => j
  | _ => 0

/-- A sensor instantiated by `create_daily_data_sensors`, with its stored
identifiers. `efficiency` with `de_index = none` is the system-level
`EfficiencySensor`. -/
inductive DailySensor where
  | efficiency (system_id : String) (de_index : Option ℕ)
  | dataSensor (system_id : String) (de_index da_index : ℕ)
deriving DecidableEq

/-- The system id stored in a `DailySensor`. -/
def DailySensor.sysId : DailySensor → String
  | .efficiency sid _ => sid
  | .dataSensor sid _ _ => sid

/-- The device index stored in a `DailySensor` (0 for the system-level
efficiency sensor). -/
def DailySensor.deIdx : DailySensor → ℕ
  | .efficiency _ (some j) => j
  | .efficiency _ none => 0
  | .dataSensor _ j _ => j

/-! ## Factory functions -/

/-- Per-device iteration of `create_system_sensors`: a
`SystemDeviceWaterPressureSensor` when `"water_pressure"` is a key of the
device's `operational_data`. -/
def deviceChunk (i di : ℕ) (d : Device) : List SensorInst :=
  if (assocLookup d.operational_data "water_pressure").isSome then
    [.systemDeviceWaterPressure i di]
  else []

/-- Per-zone iteration of `create_system_sensors`. -/
def zoneChunk (i zi : ℕ) (z : Zone) : List SensorInst :=
  [.zoneDesiredRoomTemperatureSetpoint i zi]
  ++ (if z.current_room_temperature.isSome then [.zoneCurrentRoomTemperature i zi] else [])
  ++ (if z.current_room_humidity.isSome then [.zoneHumidity i zi] else [])
  ++ [.zoneHeatingOperatingMode i zi, .zoneHeatingState i zi, .zoneCurrentSpecialFunction i zi]

/-- Per-circuit iteration of `create_system_sensors`. -/
def circuitChunk (i ci : ℕ) (c : Circuit) : List SensorInst :=
  [.circuitState i ci]
  ++ (if c.current_circuit_flow_temperature.isSome then [.circuitFlowTemperature i ci] else [])
  ++ (if c.heating_curve.isSome then [.circuitHeatingCurve i ci] else [])
  ++ (if c.min_flow_temperature_setpoint.isSome then [.circuitMinFlowTemperatureSetpoint i ci] else [])

/-- Per-domestic-hot-water iteration of `create_system_sensors`. The tank
temperature sensor is guarded by `if dhw.current_dhw_temperature:`, a
Python truthiness test. -/
def dhwChunk (i di : ℕ) (d : DomesticHotWater) : List SensorInst :=
  (if truthyQ d.current_dhw_temperature then [.domesticHotWaterTankTemperature i di] else [])
  ++ [.domesticHotWaterSetPoint i di, .domesticHotWaterOperationMode i di,
      .domesticHotWaterCurrentSpecialFunction i di]

/-- Per-system iteration of `create_system_sensors`, in source order:
optional outdoor temperature and water pressure sensors, the `HomeEntity`,
then the device, zone, circuit and domestic-hot-water loops. -/
def systemChunk (i : ℕ) (s : System) : List SensorInst :=
  (if s.outdoor_temperature.isSome then [.systemOutdoorTemperature i] else [])
  ++ (if s.water_pressure.isSome then [.systemWaterPressure i] else [])
  ++ [.homeEntity i]
  ++ (pyEnumerate s.devices).flatMap (fun p => deviceChunk i p.1 p.2)
  ++ (pyEnumerate s.zones).flatMap (fun p => zoneChunk i p.1 p.2)
  ++ (pyEnumerate s.circuits).flatMap (fun p => circuitChunk i p.1 p.2)
  ++ (pyEnumerate s.domestic_hot_water).flatMap (fun p => dhwChunk i p.1 p.2)

/-- `create_system_sensors`: returns `[]` when the coordinator's cached
data is falsy (`None` or the empty list), otherwise walks the systems. -/
def createSystemSensors (c : SystemCoordinator) : List SensorInst :=
  match c.data with
  | none => []
  | some ss =>
      if ss.isEmpty then []
      else (pyEnumerate ss).flatMap (fun p => systemChunk p.1 p.2)

/-- Daily-data dict lookup as performed inside the factory loop, where the
key always comes from iterating the same dict, so a default stands in for
the impossible miss. -/
def lookupDailyD (d : List (String × DailySystem)) (sid : String) : DailySystem :=
  (assocLookup d sid).getD ⟨"", []⟩

/-- One iteration of the inner loop of `create_daily_data_sensors`: for an
empty device-data list nothing, otherwise the per-device
`EfficiencySensor` followed by one `DataSensor` per entry of
`data[system_id]["devices_data"][de_index]`. -/
def dailyInnerChunk (d : List (String × DailySystem)) (sid : String) (m : ℕ)
    (row : List DeviceData) : List DailySensor :=
  if row.length = 0 then []
  else .efficiency sid (some m) ::
    (pyEnumerate ((lookupDailyD d sid).devices_data.getD m [])).map
      (fun q => DailySensor.dataSensor sid m q.1)

/-- Per-entry iteration of `create_daily_data_sensors`: the system-level
`EfficiencySensor`, then the inner loop over the device-data lists. -/
def dailyChunk (d : List (String × DailySystem)) (e : String × DailySystem) : List DailySensor :=
  .efficiency e.1 none ::
    (pyEnumerate e.2.devices_data).flatMap (fun p => dailyInnerChunk d e.1 p.1 p.2)

/-- `create_daily_data_sensors`: returns `[]` when the coordinator's
cached data is falsy (`None` or the empty dict), otherwise walks the dict
entries. -/
def createDailyDataSensors (c : DailyDataCoordinator) : List DailySensor :=
  match c.data with
  | none => []
  | some d =>
      if d.isEmpty then []
      else d.flatMap (dailyChunk d)

/-! ## Property accessors of the system sensors -/

/-- Home Assistant `DeviceInfo` as produced by `sensor.py`: identifier
pairs plus the optional display fields; entries absent from the Python
dict are `none`. -/
structure DeviceInfoM where
  identifiers : List (String × String)
  name : Option String := none
  manufacturer : Option String := none
  model : Option String := none
  sw_version : Option String := none
deriving DecidableEq

/-- `self.coordinator.data[self.index]`: raises when `data` is `None`
(subscripting `None`) or the index is out of range. -/
def systemAt (c : SystemCoordinator) (i : ℕ) : PyResult System :=
  match c.data with
  | none => .exn
  | some ss => pyListIndex ss i

/-- `self.system.devices[self.device_index]`. -/
def deviceAt (c : SystemCoordinator) (i di : ℕ) : PyResult Device :=
  (systemAt c i).bind fun s => pyListIndex s.devices di

/-- `self.system.zones[self.zone_index]`. -/
def zoneAt (c : SystemCoordinator) (i zi : ℕ) : PyResult Zone :=
  (systemAt c i).bind fun s => pyListIndex s.zones zi

/-- `self.system.circuits[self.circuit_index]`. -/
def circuitAt (c : SystemCoordinator) (i ci : ℕ) : PyResult Circuit :=
  (systemAt c i).bind fun s => pyListIndex s.circuits ci

/-- `self.system.domestic_hot_water[self.dhw_index]`. -/
def dhwAt (c : SystemCoordinator) (i di : ℕ) : PyResult DomesticHotWater :=
  (systemAt c i).bind fun s => pyListIndex s.domestic_hot_water di

/-- `ZoneEntity.circuit_name_suffix`. -/
def circuitNameSuffix (z : Zone) : String :=
  match z.associated_circuit_index with
  | none => ""
  | some ci => " of Circuit " ++ toString ci

/-- `native_value` of every system-coordinator sensor class, as a function
of the cached data reached through the sensor's stored indices. -/
def sysNativeValueData (k : SensorInst) (dat : Option (List System)) : PyResult (Option PyVal) :=
  let c : SystemCoordinator := ⟨dat, true⟩
  match k with
  | .systemOutdoorTemperature i =>
      (systemAt c i).bind fun s => .ok (
        match s.outdoor_temperature with
        | some t => some (.num (pyRoundTo 1 t))
        | none => none)
  | .systemWaterPressure i =>
      (systemAt c i).bind fun s => .ok (
        match s.water_pressure with
        | some t => some (.num (pyRoundTo 1 t))
        | none => none)
  | .homeEntity i =>
      (systemAt c i).bind fun s => .ok (some (.str s.home.firmware_version))
  | .systemDeviceWaterPressure i di =>
      (deviceAt c i di).bind fun d => .ok (
        (assocLookup ((assocLookup d.operational_data "water_pressure").getD []) "value"))
  | .zoneDesiredRoomTemperatureSetpoint i zi =>
      (zoneAt c i zi).bind fun z => .ok (
        if truthyQ z.desired_room_temperature_setpoint_heating then
          z.desired_room_temperature_setpoint_heating.map PyVal.num
        else if truthyQ z.desired_room_temperature_setpoint_cooling then
          z.desired_room_temperature_setpoint_cooling.map PyVal.num
        else z.desired_room_temperature_setpoint.map PyVal.num)
  | .zoneCurrentRoomTemperature i zi =>
      (zoneAt c i zi).bind fun z => .ok (
        match z.current_room_temperature with
        | none => none
        | some t => some (.num (pyRoundTo 1 t)))
  | .zoneHumidity i zi =>
      (zoneAt c i zi).bind fun z => .ok (z.current_room_humidity.map PyVal.num)
  | .zoneHeatingOperatingMode i zi =>
      (zoneAt c i zi).bind fun z => .ok (some (.str z.operation_mode_heating_display))
  | .zoneHeatingState i zi =>
      (zoneAt c i zi).bind fun z => .ok (some (.str z.heating_state_display))
  | .zoneCurrentSpecialFunction i zi =>
      (zoneAt c i zi).bind fun z => .ok (some (.str z.current_special_function_display))
  | .circuitState i ci =>
      (circuitAt c i ci).bind fun cc => .ok (cc.circuit_state.map PyVal.str)
  | .circuitFlowTemperature i ci =>
      (circuitAt c i ci).bind fun cc => .ok (cc.current_circuit_flow_temperature.map PyVal.num)
  | .circuitHeatingCurve i ci =>
      (circuitAt c i ci).bind fun cc => .ok (
        match cc.heating_curve with
        | some h => some (.num (pyRoundTo 2 h))
        | none => none)
  | .circuitMinFlowTemperatureSetpoint i ci =>
      (circuitAt c i ci).bind fun cc => .ok (cc.min_flow_temperature_setpoint.map PyVal.num)
  | .domesticHotWaterTankTemperature i di =>
      (dhwAt c i di).bind fun d => .ok (d.current_dhw_temperature.map PyVal.num)
  | .domesticHotWaterSetPoint i di =>
      (dhwAt c i di).bind fun d => .ok (d.tapping_setpoint.map PyVal.num)
  | .domesticHotWaterOperationMode i di =>
      (dhwAt c i di).bind fun d => .ok (some (.str d.operation_mode_dhw_display))
  | .domesticHotWaterCurrentSpecialFunction i di =>
      (dhwAt c i di).bind fun d => .ok (some (.str d.current_special_function_display))

/-- `native_value` read on the live coordinator. -/
def sysNativeValue (k : SensorInst) (c : SystemCoordinator) : PyResult (Option PyVal) :=
  sysNativeValueData k c.data

/-- `name` of every system-coordinator sensor class. -/
def sysNameData (k : SensorInst) (dat : Option (List System)) : PyResult (Option String) :=
  let c : SystemCoordinator := ⟨dat, true⟩
  match k with
  | .systemOutdoorTemperature i =>
      (systemAt c i).bind fun s => .ok (some (namePrefixOf s.home.name ++ "Outdoor Temperature"))
  | .systemWaterPressure i =>
      (systemAt c i).bind fun s => .ok (some (namePrefixOf s.home.name ++ "System Water Pressure"))
  | .homeEntity i =>
      (systemAt c i).bind fun s => .ok (some (namePrefixOf s.home.name ++ "Firmware Version"))
  | .systemDeviceWaterPressure i di =>
      (systemAt c i).bind fun s => (deviceAt c i di).bind fun d =>
        .ok (some (namePrefixOf s.home.name ++ "Water Pressure " ++ d.name))
  | .zoneDesiredRoomTemperatureSetpoint i zi =>
      (systemAt c i).bind fun s => (zoneAt c i zi).bind fun z =>
        .ok (some (namePrefixOf s.home.name ++ "Desired Temperature in " ++ z.name))
  | .zoneCurrentRoomTemperature i zi =>
      (systemAt c i).bind fun s => (zoneAt c i zi).bind fun z =>
        .ok (some (namePrefixOf s.home.name ++ "Current Temperature in " ++ z.name))
  | .zoneHumidity i zi =>
      (systemAt c i).bind fun s => (zoneAt c i zi).bind fun z =>
        .ok (some (namePrefixOf s.home.name ++ "Humidity in " ++ z.name))
  | .zoneHeatingOperatingMode i zi =>
      (systemAt c i).bind fun s => (zoneAt c i zi).bind fun z =>
        .ok (some (namePrefixOf s.home.name ++ "Heating Operating Mode in " ++ z.name))
  | .zoneHeatingState i zi =>
      (systemAt c i).bind fun s => (zoneAt c i zi).bind fun z =>
        .ok (some (namePrefixOf s.home.name ++ "Heating State in " ++ z.name))
  | .zoneCurrentSpecialFunction i zi =>
      (systemAt c i).bind fun s => (zoneAt c i zi).bind fun z =>
        .ok (some (namePrefixOf s.home.name ++ "Current Special Function in " ++ z.name))
  | .circuitState i ci =>
      (systemAt c i).bind fun s => (circuitAt c i ci).bind fun cc =>
        .ok (some (namePrefixOf s.home.name ++ "State in Circuit " ++ toString cc.index))
  | .circuitFlowTemperature i ci =>
      (systemAt c i).bind fun s => (circuitAt c i ci).bind fun cc =>
        .ok (some (namePrefixOf s.home.name ++ "Current Flow Temperature in Circuit " ++ toString cc.index))
  | .circuitHeatingCurve i ci =>
      (systemAt c i).bind fun s => (circuitAt c i ci).bind fun cc =>
        .ok (some (namePrefixOf s.home.name ++ "Heating Curve in Circuit " ++ toString cc.index))
  | .circuitMinFlowTemperatureSetpoint i ci =>
      (systemAt c i).bind fun s => (circuitAt c i ci).bind fun cc =>
        .ok (some (namePrefixOf s.home.name ++ "Min Flow Temperature Setpoint in Circuit " ++ toString cc.index))
  | .domesticHotWaterTankTemperature i di =>
      (systemAt c i).bind fun s => (dhwAt c i di).bind fun d =>
        .ok (some (namePrefixOf s.home.name ++ "Tank Temperature Domestic Hot Water " ++ toString d.index))
  | .domesticHotWaterSetPoint i di =>
      (systemAt c i).bind fun s => (dhwAt c i di).bind fun d =>
        .ok (some (namePrefixOf s.home.name ++ "Setpoint Domestic Hot Water " ++ toString d.index))
  | .domesticHotWaterOperationMode i di =>
      (systemAt c i).bind fun s => (dhwAt c i di).bind fun d =>
        .ok (some (namePrefixOf s.home.name ++ "Operation Mode Domestic Hot Water " ++ toString d.index))
  | .domesticHotWaterCurrentSpecialFunction i di =>
      (systemAt c i).bind fun s => (dhwAt c i di).bind fun d =>
        .ok (some (namePrefixOf s.home.name ++ "Current Special Function Domestic Hot Water " ++ toString d.index))

/-- `name` read on the live coordinator. -/
def sysName (k : SensorInst) (c : SystemCoordinator) : PyResult (Option String) :=
  sysNameData k c.data

/-- `unique_id` of every system-coordinator sensor class. -/
def sysUniqueIdData (k : SensorInst) (dat : Option (List System)) : PyResult (Option String) :=
  let c : SystemCoordinator := ⟨dat, true⟩
  match k with
  | .systemOutdoorTemperature i =>
      (systemAt c i).bind fun s => .ok (some (uniqueIdPrefixOf s.id ++ "outdoor_temperature"))
  | .systemWaterPressure i =>
      (systemAt c i).bind fun s => .ok (some (uniqueIdPrefixOf s.id ++ "water_pressure_" ++ toString i))
  | .homeEntity i =>
      (systemAt c i).bind fun s => .ok (some (uniqueIdPrefixOf s.id ++ "home"))
  | .systemDeviceWaterPressure i di =>
      (systemAt c i).bind fun s => (deviceAt c i di).bind fun d =>
        .ok (some (uniqueIdPrefixOf s.id ++ "water_pressure_" ++ d.device_uuid))
  | .zoneDesiredRoomTemperatureSetpoint i zi =>
      (systemAt c i).bind fun s =>
        .ok (some (uniqueIdPrefixOf s.id ++ "zone_desired_temperature_" ++ toString zi))
  | .zoneCurrentRoomTemperature i zi =>
      (systemAt c i).bind fun s =>
        .ok (some (uniqueIdPrefixOf s.id ++ "zone_current_temperature_" ++ toString zi))
  | .zoneHumidity i zi =>
      (systemAt c i).bind fun s =>
        .ok (some (uniqueIdPrefixOf s.id ++ "zone_humidity_" ++ toString zi))
  | .zoneHeatingOperatingMode i zi =>
      (systemAt c i).bind fun s =>
        .ok (some (uniqueIdPrefixOf s.id ++ "zone_heating_operating_mode_" ++ toString zi))
  | .zoneHeatingState i zi =>
      (systemAt c i).bind fun s =>
        .ok (some (uniqueIdPrefixOf s.id ++ "zone_heating_state_" ++ toString zi))
  | .zoneCurrentSpecialFunction i zi =>
      (systemAt c i).bind fun s =>
        .ok (some (uniqueIdPrefixOf s.id ++ "zone_current_special_function_" ++ toString zi))
  | .circuitState i ci =>
      (systemAt c i).bind fun s =>
        .ok (some (uniqueIdPrefixOf s.id ++ "circuit_state_" ++ toString ci))
  | .circuitFlowTemperature i ci =>
      (systemAt c i).bind fun s =>
        .ok (some (uniqueIdPrefixOf s.id ++ "circuit_flow_temperature_" ++ toString ci))
  | .circuitHeatingCurve i ci =>
      (systemAt c i).bind fun s =>
        .ok (some (uniqueIdPrefixOf s.id ++ "circuit_heating_curve_" ++ toString ci))
  | .circuitMinFlowTemperatureSetpoint i ci =>
      (systemAt c i).bind fun s =>
        .ok (some (uniqueIdPrefixOf s.id ++ "circuit_min_flow_temperature_setpoint_" ++ toString ci))
  | .domesticHotWaterTankTemperature i di =>
      (systemAt c i).bind fun s =>
        .ok (some (uniqueIdPrefixOf s.id ++ "dhw_tank_temperature_" ++ toString di))
  | .domesticHotWaterSetPoint i di =>
      (systemAt c i).bind fun s =>
        .ok (some (uniqueIdPrefixOf s.id ++ "dhw_set_point_" ++ toString di))
  | .domesticHotWaterOperationMode i di =>
      (systemAt c i).bind fun s =>
        .ok (some (uniqueIdPrefixOf s.id ++ "dhw_operation_mode_" ++ toString di))
  | .domesticHotWaterCurrentSpecialFunction i di =>
      (systemAt c i).bind fun s =>
        .ok (some (uniqueIdPrefixOf s.id ++ "dhw_current_special_function_" ++ toString di))

/-- `unique_id` read on the live coordinator. -/
def sysUniqueId (k : SensorInst) (c : SystemCoordinator) : PyResult (Option String) :=
  sysUniqueIdData k c.data

/-- `device_info` of every system-coordinator sensor class. -/
def sysDeviceInfoData (k : SensorInst) (dat : Option (List System)) : PyResult (Option DeviceInfoM) :=
  let c : SystemCoordinator := ⟨dat, true⟩
  match k with
  | .systemOutdoorTemperature i =>
      (systemAt c i).bind fun s =>
        .ok (some { identifiers := [(DOMAIN, "home_" ++ s.id)] })
  | .systemWaterPressure i =>
      (systemAt c i).bind fun s =>
        .ok (some { identifiers := [(DOMAIN, "home_" ++ s.id)] })
  | .homeEntity i =>
      (systemAt c i).bind fun s =>
        .ok (some { identifiers := [(DOMAIN, "home_" ++ s.id)],
                    name := some s.home.name,
                    manufacturer := some s.brand_name,
                    model := some s.home.nomenclature,
                    sw_version := some s.home.firmware_version })
  | .systemDeviceWaterPressure i _ =>
      (systemAt c i).bind fun s =>
        .ok (some { identifiers := [(DOMAIN, "system_" ++ s.id)] })
  | .zoneDesiredRoomTemperatureSetpoint i zi => zoneInfo c i zi
  | .zoneCurrentRoomTemperature i zi => zoneInfo c i zi
  | .zoneHumidity i zi => zoneInfo c i zi
  | .zoneHeatingOperatingMode i zi => zoneInfo c i zi
  | .zoneHeatingState i zi => zoneInfo c i zi
  | .zoneCurrentSpecialFunction i zi => zoneInfo c i zi
  | .circuitState i ci => circuitInfo c i ci
  | .circuitFlowTemperature i ci => circuitInfo c i ci
  | .circuitHeatingCurve i ci => circuitInfo c i ci
  | .circuitMinFlowTemperatureSetpoint i ci => circuitInfo c i ci
  | .domesticHotWaterTankTemperature i di => dhwInfo c i di
  | .domesticHotWaterSetPoint i di => dhwInfo c i di
  | .domesticHotWaterOperationMode i di => dhwInfo c i di
  | .domesticHotWaterCurrentSpecialFunction i di => dhwInfo c i di
where
  /-- `ZoneEntity.device_info`. -/
  zoneInfo (c : SystemCoordinator) (i zi : ℕ) : PyResult (Option DeviceInfoM) :=
    (systemAt c i).bind fun s => (zoneAt c i zi).bind fun z =>
      .ok (some { identifiers := [(DOMAIN, "zone_" ++ s.id ++ "_" ++ toString z.index)],
                  name := some (namePrefixOf s.home.name ++ "Zone " ++ z.name ++ circuitNameSuffix z),
                  manufacturer := some s.brand_name })
  /-- `CircuitSensor.device_info`. -/
  circuitInfo (c : SystemCoordinator) (i ci : ℕ) : PyResult (Option DeviceInfoM) :=
    (systemAt c i).bind fun s => (circuitAt c i ci).bind fun cc =>
      .ok (some { identifiers := [(DOMAIN, "circuit_" ++ s.id ++ "_" ++ toString cc.index)] })
  /-- `DomesticHotWaterSensor.device_info`. -/
  dhwInfo (c : SystemCoordinator) (i di : ℕ) : PyResult (Option DeviceInfoM) :=
    (systemAt c i).bind fun s => (dhwAt c i di).bind fun d =>
      .ok (some { identifiers := [(DOMAIN, "domestic_hot_water_" ++ s.id ++ "_" ++ toString d.index)] })

/-- `device_info` read on the live coordinator. -/
def sysDeviceInfo (k : SensorInst) (c : SystemCoordinator) : PyResult (Option DeviceInfoM) :=
  sysDeviceInfoData k c.data

/-- `extra_state_attributes` of every system-coordinator sensor class:
`HomeEntity` merges the home's and the system's extra fields,
`CircuitStateSensor` exposes the circuit's, every other class inherits the
framework default `None`. -/
def sysExtraStateAttributesData (k : SensorInst) (dat : Option (List System)) :
    PyResult (Option (List (String × PyVal))) :=
  let c : SystemCoordinator := ⟨dat, true⟩
  match k with
  | .homeEntity i =>
      (systemAt c i).bind fun s =>
        .ok (some (dictMerge s.home.extra_fields s.extra_fields))
  | .circuitState i ci =>
      (circuitAt c i ci).bind fun cc => .ok (some cc.extra_fields)
  | _ => .ok none

/-- `extra_state_attributes` read on the live coordinator. -/
def sysExtraStateAttributes (k : SensorInst) (c : SystemCoordinator) :
    PyResult (Option (List (String × PyVal))) :=
  sysExtraStateAttributesData k c.data

/-! ## Property accessors of the daily-data sensors -/

/-- `self.coordinator.data[self.system_id]`: raises when `data` is `None`
or the key is absent. -/
def dailySystemFor (dat : Option (List (String × DailySystem))) (sid : String) :
    PyResult DailySystem :=
  match dat with
  | none => .exn
  | some d =>
      match assocLookup d sid with
      | some sys => .ok sys
      | none => .exn

/-- `DataSensor.device_data`: guarded indexing into
`data[system_id]["devices_data"][de_index][da_index]`; out-of-range
indices yield `None`. -/
def dsDeviceDataD (sid : String) (de da : ℕ) (dat : Option (List (String × DailySystem))) :
    PyResult (Option DeviceData) :=
  (dailySystemFor dat sid).bind fun sys =>
    if sys.devices_data.length ≤ de then .ok none
    else (pyListIndex sys.devices_data de).bind fun row =>
      if row.length ≤ da then .ok none
      else (pyListIndex row da).bind fun dd => .ok (some dd)

/-- `DataSensor.device_data` read on the live coordinator. -/
def dsDeviceData (sid : String) (de da : ℕ) (c : DailyDataCoordinator) :
    PyResult (Option DeviceData) :=
  dsDeviceDataD sid de da c.data

/-- `DataSensor.device`: `None` when `device_data` is `None`, otherwise
the device data's (optional) device. -/
def dsDeviceD (sid : String) (de da : ℕ) (dat : Option (List (String × DailySystem))) :
    PyResult (Option Device) :=
  (dsDeviceDataD sid de da dat).bind fun dd =>
    match dd with
    | none => .ok none
    | some d => .ok d.device

/-- `DataSensor.device` read on the live coordinator. -/
def dsDevice (sid : String) (de da : ℕ) (c : DailyDataCoordinator) : PyResult (Option Device) :=
  dsDeviceD sid de da c.data

/-- `DataSensor.home_name`: `data[system_id]["home_name"]`. -/
def dsHomeNameD (sid : String) (dat : Option (List (String × DailySystem))) : PyResult String :=
  (dailySystemFor dat sid).bind fun sys => .ok sys.home_name

/-- `DataSensor.name`: `None` unless both `device` and `device_data` are
present, otherwise the formatted display name. -/
def dsNameD (sid : String) (de da : ℕ) (dat : Option (List (String × DailySystem))) :
    PyResult (Option String) :=
  (dsDeviceD sid de da dat).bind fun dev =>
  (dsDeviceDataD sid de da dat).bind fun dd =>
    match dev, dd with
    | some v, some ddv =>
        (dsHomeNameD sid dat).bind fun hn =>
          let om := pyTitle (ddv.operation_mode.replace "_" " ")
          let et := match ddv.energy_type with
            | some e => pyTitle (e.replace "_" " ") ++ " "
            | none => ""
          .ok (some (namePrefixOf hn ++ toString de ++ " " ++ v.name_display ++ " " ++ et ++ om))
    | _, _ => .ok none

/-- `DataSensor.name` read on the live coordinator. -/
def dsName (sid : String) (de da : ℕ) (c : DailyDataCoordinator) : PyResult (Option String) :=
  dsNameD sid de da c.data

/-- `DataSensor.unique_id`: `None` when `device` is `None`. -/
def dsUniqueIdD (sid : String) (de da : ℕ) (dat : Option (List (String × DailySystem))) :
    PyResult (Option String) :=
  (dsDeviceD sid de da dat).bind fun dev =>
    match dev with
    | none => .ok none
    | some v => .ok (some (uniqueIdPrefixOf sid ++ v.device_uuid ++ "_" ++ toString da))

/-- `DataSensor.unique_id` read on the live coordinator. -/
def dsUniqueId (sid : String) (de da : ℕ) (c : DailyDataCoordinator) : PyResult (Option String) :=
  dsUniqueIdD sid de da c.data

/-- `DataSensor.device_info`: `None` when `device` is `None`. -/
def dsDeviceInfoD (sid : String) (de da : ℕ) (dat : Option (List (String × DailySystem))) :
    PyResult (Option DeviceInfoM) :=
  (dsDeviceD sid de da dat).bind fun dev =>
    match dev with
    | none => .ok none
    | some v =>
        (dsHomeNameD sid dat).bind fun hn =>
          .ok (some { identifiers := [(DOMAIN, "device_" ++ sid ++ "_" ++ v.device_uuid)],
                      name := some (namePrefixOf hn ++ toString de ++ " " ++ v.name_display),
                      manufacturer := some v.brand_name,
                      model := some v.product_name_display })

/-- `DataSensor.device_info` read on the live coordinator. -/
def dsDeviceInfo (sid : String) (de da : ℕ) (c : DailyDataCoordinator) :
    PyResult (Option DeviceInfoM) :=
  dsDeviceInfoD sid de da c.data

/-- `DataSensor.data_bucket`: the last bucket of the device data whose
value is not `None`, if any. -/
def dsDataBucketD (sid : String) (de da : ℕ) (dat : Option (List (String × DailySystem))) :
    PyResult (Option DeviceDataBucket) :=
  (dsDeviceDataD sid de da dat).bind fun dd =>
    match dd with
    | none => .ok none
    | some ddv => .ok ((ddv.data.filter (fun b => b.value.isSome)).getLast?)

/-- `DataSensor.native_value`: the data bucket's value, `None` when there
is no bucket. -/
def dsNativeValueD (sid : String) (de da : ℕ) (dat : Option (List (String × DailySystem))) :
    PyResult (Option PyVal) :=
  (dsDataBucketD sid de da dat).bind fun b =>
    match b with
    | some bv => .ok (bv.value.map PyVal.num)
    | none => .ok none

/-- `DataSensor.native_value` read on the live coordinator. -/
def dsNativeValue (sid : String) (de da : ℕ) (c : DailyDataCoordinator) :
    PyResult (Option PyVal) :=
  dsNativeValueD sid de da c.data

/-- The unit selection in `DataSensor.__init__`:
`_attr_native_unit_of_measurement` is assigned from `DATA_UNIT_MAP` when
`device_data` is present and its `energy_type` is a key of the map, and is
left at the framework default `None` otherwise. -/
def dataSensorInitUnitD (sid : String) (de da : ℕ)
    (dat : Option (List (String × DailySystem))) : PyResult (Option String) :=
  (dsDeviceDataD sid de da dat).bind fun dd =>
    .ok (match dd with
      | some d =>
          match d.energy_type with
          | some et => assocLookup DATA_UNIT_MAP et
          | none => none
      | none => none)

/-- Unit selection of `DataSensor.__init__` on the live coordinator. -/
def dataSensorInitUnit (sid : String) (de da : ℕ) (c : DailyDataCoordinator) :
    PyResult (Option String) :=
  dataSensorInitUnitD sid de da c.data

/-- `EfficiencySensor.device_data_list`: all device data of the system
when `de_index` is `None`, otherwise `devices_data[de_index]`. -/
def effDeviceDataListD (sid : String) (de : Option ℕ)
    (dat : Option (List (String × DailySystem))) : PyResult (List DeviceData) :=
  (dailySystemFor dat sid).bind fun sys =>
    match de with
    | none => .ok sys.devices_data.flatten
    | some j => pyListIndex sys.devices_data j

/-- `EfficiencySensor.home_name`. -/
def effHomeNameD (sid : String) (dat : Option (List (String × DailySystem))) : PyResult String :=
  (dailySystemFor dat sid).bind fun sys => .ok sys.home_name

/-- The summand filter of `EfficiencySensor.energy_consumed` and
`heat_energy_generated`: a device data contributes its last bucket's value
when its bucket list is non-empty, that value is truthy, and its energy
type equals the given key. -/
def effSummand (key : String) (v : DeviceData) : Option ℚ :=
  match v.data.getLast? with
  | none => none
  | some b =>
      match b.value with
      | none => none
      | some q => if q ≠ 0 ∧ v.energy_type = some key then some q else none

/-- `EfficiencySensor.energy_consumed`: daily consumed electrical energy. -/
def effEnergyConsumedD (sid : String) (de : Option ℕ)
    (dat : Option (List (String × DailySystem))) : PyResult ℚ :=
  (effDeviceDataListD sid de dat).bind fun ddl =>
    .ok ((ddl.filterMap (effSummand "CONSUMED_ELECTRICAL_ENERGY")).sum)

/-- `EfficiencySensor.energy_consumed` on the live coordinator. -/
def effEnergyConsumed (sid : String) (de : Option ℕ) (c : DailyDataCoordinator) : PyResult ℚ :=
  effEnergyConsumedD sid de c.data

/-- `EfficiencySensor.heat_energy_generated`: daily generated heat. -/
def effHeatGeneratedD (sid : String) (de : Option ℕ)
    (dat : Option (List (String × DailySystem))) : PyResult ℚ :=
  (effDeviceDataListD sid de dat).bind fun ddl =>
    .ok ((ddl.filterMap (effSummand "HEAT_GENERATED")).sum)

/-- `EfficiencySensor.heat_energy_generated` on the live coordinator. -/
def effHeatGenerated (sid : String) (de : Option ℕ) (c : DailyDataCoordinator) : PyResult ℚ :=
  effHeatGeneratedD sid de c.data

/-- `EfficiencySensor.native_value`: the efficiency ratio rounded to one
decimal place when `energy_consumed` is positive (it is never `None`,
being a sum), and `None` otherwise. -/
def effNativeValueD (sid : String) (de : Option ℕ)
    (dat : Option (List (String × DailySystem))) : PyResult (Option PyVal) :=
  (effEnergyConsumedD sid de dat).bind fun ec =>
    if 0 < ec then
      (effHeatGeneratedD sid de dat).bind fun hg =>
        .ok (some (.num (pyRoundTo 1 (hg / ec))))
    else .ok none

/-- `EfficiencySensor.native_value` on the live coordinator. -/
def effNativeValue (sid : String) (de : Option ℕ) (c : DailyDataCoordinator) :
    PyResult (Option PyVal) :=
  effNativeValueD sid de c.data

/-- `EfficiencySensor.unique_id`. -/
def effUniqueIdD (sid : String) (de : Option ℕ)
    (dat : Option (List (String × DailySystem))) : PyResult (Option String) :=
  (effDeviceDataListD sid de dat).bind fun ddl =>
    match ddl, de with
    | d0 :: _, some _ =>
        match d0.device with
        | some v => .ok (some (uniqueIdPrefixOf sid ++ v.device_uuid ++ "_heating_energy_efficiency"))
        | none => .ok (some (uniqueIdPrefixOf sid ++ "heating_energy_efficiency"))
    | _, _ => .ok (some (uniqueIdPrefixOf sid ++ "heating_energy_efficiency"))

/-- `EfficiencySensor.device_info`. -/
def effDeviceInfoD (sid : String) (de : Option ℕ)
    (dat : Option (List (String × DailySystem))) : PyResult (Option DeviceInfoM) :=
  (effDeviceDataListD sid de dat).bind fun ddl =>
    match ddl with
    | [] => .ok none
    | d0 :: _ =>
        match de, d0.device with
        | some _, some v =>
            .ok (some { identifiers := [(DOMAIN, "device_" ++ sid ++ "_" ++ v.device_uuid)] })
        | none, _ => .ok (some { identifiers := [(DOMAIN, "home_" ++ sid)] })
        | some _, none => .ok none

/-- `EfficiencySensor.name`. -/
def effNameD (sid : String) (de : Option ℕ)
    (dat : Option (List (String × DailySystem))) : PyResult (Option String) :=
  (effDeviceDataListD sid de dat).bind fun ddl =>
  (effHomeNameD sid dat).bind fun hn =>
    match ddl, de with
    | d0 :: _, some j =>
        match d0.device with
        | some v =>
            .ok (some (namePrefixOf hn ++ toString j ++ " " ++ v.name_display
              ++ " Heating Energy Efficiency"))
        | none => .ok (some (namePrefixOf hn ++ "Heating Energy Efficiency"))
    | _, _ => .ok (some (namePrefixOf hn ++ "Heating Energy Efficiency"))

/-- `name` of every daily-data sensor. -/
def dailyNameData (k : DailySensor) (dat : Option (List (String × DailySystem))) :
    PyResult (Option String) :=
  match k with
  | .efficiency sid de => effNameD sid de dat
  | .dataSensor sid de da => dsNameD sid de da dat

/-- `name` of a daily-data sensor on the live coordinator. -/
def dailyName (k : DailySensor) (c : DailyDataCoordinator) : PyResult (Option String) :=
  dailyNameData k c.data

/-- `unique_id` of every daily-data sensor. -/
def dailyUniqueIdData (k : DailySensor) (dat : Option (List (String × DailySystem))) :
    PyResult (Option String) :=
  match k with
  | .efficiency sid de => effUniqueIdD sid de dat
  | .dataSensor sid de da => dsUniqueIdD sid de da dat

/-- `unique_id` of a daily-data sensor on the live coordinator. -/
def dailyUniqueId (k : DailySensor) (c : DailyDataCoordinator) : PyResult (Option String) :=
  dailyUniqueIdData k c.data

/-- `native_value` of every daily-data sensor. -/
def dailyNativeValueData (k : DailySensor) (dat : Option (List (String × DailySystem))) :
    PyResult (Option PyVal) :=
  match k with
  | .efficiency sid de => effNativeValueD sid de dat
  | .dataSensor sid de da => dsNativeValueD sid de da dat

/-- `native_value` of a daily-data sensor on the live coordinator. -/
def dailyNativeValue (k : DailySensor) (c : DailyDataCoordinator) : PyResult (Option PyVal) :=
  dailyNativeValueData k c.data

/-- `device_info` of every daily-data sensor. -/
def dailyDeviceInfoData (k : DailySensor) (dat : Option (List (String × DailySystem))) :
    PyResult (Option DeviceInfoM) :=
  match k with
  | .efficiency sid de => effDeviceInfoD sid de dat
  | .dataSensor sid de da => dsDeviceInfoD sid de da dat

/-- `device_info` of a daily-data sensor on the live coordinator. -/
def dailyDeviceInfo (k : DailySensor) (c : DailyDataCoordinator) : PyResult (Option DeviceInfoM) :=
  dailyDeviceInfoData k c.data

/-- `extra_state_attributes` of the daily-data sensors: neither class
defines it, so the framework default `None` is returned. -/
def dailyExtraStateAttributes (_ : DailySensor) (_ : DailyDataCoordinator) :
    PyResult (Option (List (String × PyVal))) :=
  .ok none

/-! ## State-threaded operations

`sensor.py` reads `hass.data[DOMAIN][entry_id]` to reach the two
coordinators and then only ever reads their cached `.data`. The operations
are rendered as explicit state-passing functions so the frame property —
the coordinator caches after a call equal the caches before it — is a
statement, matching the absence of any assignment to coordinator state in
the source. -/

/-- The part of `hass.data[DOMAIN][config.entry_id]` that `sensor.py`
reaches: the two coordinators. -/
structure HassState where
  system_coordinator : SystemCoordinator
  daily_data_coordinator : DailyDataCoordinator
deriving DecidableEq

/-- `create_system_sensors` as a state-passing operation. -/
def createSystemSensorsOp (st : HassState) : List SensorInst × HassState :=
  (createSystemSensors st.system_coordinator, st)

/-- `create_daily_data_sensors` as a state-passing operation. -/
def createDailyDataSensorsOp (st : HassState) : List DailySensor × HassState :=
  (createDailyDataSensors st.daily_data_coordinator, st)

/-- A system sensor's `name` as a state-passing operation. -/
def sysNameOp (k : SensorInst) (st : HassState) : PyResult (Option String) × HassState :=
  (sysName k st.system_coordinator, st)

/-- A system sensor's `unique_id` as a state-passing operation. -/
def sysUniqueIdOp (k : SensorInst) (st : HassState) : PyResult (Option String) × HassState :=
  (sysUniqueId k st.system_coordinator, st)

/-- A system sensor's `native_value` as a state-passing operation. -/
def sysNativeValueOp (k : SensorInst) (st : HassState) : PyResult (Option PyVal) × HassState :=
  (sysNativeValue k st.system_coordinator, st)

/-- A system sensor's `device_info` as a state-passing operation. -/
def sysDeviceInfoOp (k : SensorInst) (st : HassState) : PyResult (Option DeviceInfoM) × HassState :=
  (sysDeviceInfo k st.system_coordinator, st)

/-- A system sensor's `extra_state_attributes` as a state-passing
operation. -/
def sysExtraStateAttributesOp (k : SensorInst) (st : HassState) :
    PyResult (Option (List (String × PyVal))) × HassState :=
  (sysExtraStateAttributes k st.system_coordinator, st)

/-- A daily-data sensor's `name` as a state-passing operation. -/
def dailyNameOp (k : DailySensor) (st : HassState) : PyResult (Option String) × HassState :=
  (dailyName k st.daily_data_coordinator, st)

/-- A daily-data sensor's `unique_id` as a state-passing operation. -/
def dailyUniqueIdOp (k : DailySensor) (st : HassState) : PyResult (Option String) × HassState :=
  (dailyUniqueId k st.daily_data_coordinator, st)

/-- A daily-data sensor's `native_value` as a state-passing operation. -/
def dailyNativeValueOp (k : DailySensor) (st : HassState) :
    PyResult (Option PyVal) × HassState :=
  (dailyNativeValue k st.daily_data_coordinator, st)

/-- A daily-data sensor's `device_info` as a state-passing operation. -/
def dailyDeviceInfoOp (k : DailySensor) (st : HassState) :
    PyResult (Option DeviceInfoM) × HassState :=
  (dailyDeviceInfo k st.daily_data_coordinator, st)

/-- A daily-data sensor's `extra_state_attributes` as a state-passing
operation. -/
def dailyExtraStateAttributesOp (k : DailySensor) (st : HassState) :
    PyResult (Option (List (String × PyVal))) × HassState :=
  (dailyExtraStateAttributes k st.daily_data_coordinator, st)

/-! ## Counting infrastructure -/

theorem countOcc_append {α : Type} [DecidableEq α] (a : α) (l m : List α) :
    countOcc a (l ++ m) = countOcc a l + countOcc a m := by
  induction l with
  | nil => simp [countOcc]
  | cons x xs ih => simp [countOcc, ih, Nat.add_assoc]

theorem countOcc_eq_zero_of_forall {α : Type} [DecidableEq α] {a : α} :
    ∀ {l : List α}, (∀ x ∈ l, x ≠ a) → countOcc a l = 0
  | [], _ => rfl
  | x :: xs, h => by
      have hx : x ≠ a := h x (List.mem_cons_self x xs)
      have ht := countOcc_eq_zero_of_forall (fun y hy => h y (List.mem_cons_of_mem x hy))
      simp [countOcc, hx, ht]

theorem key_ge_of_mem_enum_chunks {α β : Type}
    (f : ℕ → α → List β) (key : β → ℕ)
    (hkey : ∀ m x y, y ∈ f m x → key y = m) :
    ∀ (xs : List α) (n : ℕ) (y : β),
      y ∈ (pyEnumerateFrom n xs).flatMap (fun p => f p.1 p.2) → n ≤ key y
  | [], _, _, h => by simp [pyEnumerateFrom] at h
  | x :: xs, n, y, h => by
      rw [pyEnumerateFrom, List.flatMap_cons, List.mem_append] at h
      rcases h with h | h
      · exact (hkey n x y h).ge
      · exact Nat.le_of_succ_le (key_ge_of_mem_enum_chunks f key hkey xs (n + 1) y h)

/-- Counting an element in the concatenation of per-index chunks, when
every element of the chunk at index `m` carries key `m`: only the chunk at
the element's own key contributes. -/
theorem countOcc_enum_chunks {α β : Type} [DecidableEq β]
    (f : ℕ → α → List β) (key : β → ℕ)
    (hkey : ∀ m x y, y ∈ f m x → key y = m) (b : β) :
    ∀ (xs : List α) (n i : ℕ) (x : α), key b = n + i → xs.get? i = some x →
      countOcc b ((pyEnumerateFrom n xs).flatMap (fun p => f p.1 p.2)) =
        countOcc b (f (n + i) x)
  | [], _, i, _, _, hget => by simp at hget
  | z :: zs, n, 0, x, hk, hget => by
      have hz : z = x := by simpa using hget
      subst hz
      rw [pyEnumerateFrom, List.flatMap_cons, countOcc_append]
      have hrest : countOcc b ((pyEnumerateFrom (n + 1) zs).flatMap (fun p => f p.1 p.2)) = 0 := by
        refine countOcc_eq_zero_of_forall fun y hy hyb => ?_
        subst hyb
        have h1 := key_ge_of_mem_enum_chunks f key hkey zs (n + 1) y hy
        omega
      rw [hrest]
      simp
  | z :: zs, n, i + 1, x, hk, hget => by
      have hget2 : zs.get? i = some x := by simpa using hget
      rw [pyEnumerateFrom, List.flatMap_cons, countOcc_append]
      have hz : countOcc b (f n z) = 0 := by
        refine countOcc_eq_zero_of_forall fun y hy hyb => ?_
        subst hyb
        have h1 := hkey n z y hy
        omega
      have hrec := countOcc_enum_chunks f key hkey b zs (n + 1) i x (by omega) hget2
      rw [hz, hrec]
      have hadd : n + 1 + i = n + (i + 1) := by omega
      rw [hadd]
      simp

/-- Counting `g da` in the image of an enumeration under an injective
index-consuming function: one occurrence exactly when `da` falls in the
enumerated range. -/
theorem countOcc_enum_map {α β : Type} [DecidableEq β]
    (g : ℕ → β) (hg : ∀ m m', g m = g m' → m = m') (da : ℕ) :
    ∀ (xs : List α) (n : ℕ),
      countOcc (g da) ((pyEnumerateFrom n xs).map (fun q => g q.1)) =
        if n ≤ da ∧ da < n + xs.length then 1 else 0
  | [], n => by
      rw [pyEnumerateFrom]
      simp only [List.map_nil, countOcc, List.length_nil, Nat.add_zero]
      rw [if_neg (by omega)]
  | x :: xs, n => by
      rw [pyEnumerateFrom, List.map_cons]
      have hrec := countOcc_enum_map g hg da xs (n + 1)
      by_cases hn : n = da
      · have h1 : g n = g da := by rw [hn]
        simp only [countOcc, hrec, if_pos h1]
        have hfalse : ¬ (n + 1 ≤ da ∧ da < n + 1 + xs.length) := by omega
        have htrue : n ≤ da ∧ da < n + (x :: xs).length := by
          simp only [List.length_cons]
          omega
        rw [if_neg hfalse, if_pos htrue]
      · have h1 : g n ≠ g da := fun h => hn (hg n da h)
        simp only [countOcc, hrec, if_neg h1]
        simp only [List.length_cons]
        by_cases h2 : n + 1 ≤ da ∧ da < n + 1 + xs.length
        · rw [if_pos h2, if_pos (by omega)]
        · rw [if_neg h2, if_neg (by omega)]

/-- Counting an element in the concatenation of per-entry chunks of an
association list with distinct keys, when every element of the chunk of
entry `e` carries key `e.1`: only the chunk of the element's own key
contributes. -/
theorem countOcc_assoc_chunks {α β κ : Type} [DecidableEq β] [DecidableEq κ]
    (f : κ × α → List β) (key : β → κ)
    (hkey : ∀ e y, y ∈ f e → key y = e.1) (b : β) :
    ∀ (d : List (κ × α)) (sid : κ) (sd : α),
      (d.map Prod.fst).Nodup → (sid, sd) ∈ d → key b = sid →
      countOcc b (d.flatMap f) = countOcc b (f (sid, sd))
  | [], _, _, _, hmem, _ => by simp at hmem
  | e :: d', sid, sd, hnd, hmem, hk => by
      have hnd' : (e.1 :: d'.map Prod.fst).Nodup := by simpa using hnd
      have hnd1 : e.1 ∉ d'.map Prod.fst := (List.nodup_cons.mp hnd').1
      have hnd2 : (d'.map Prod.fst).Nodup := (List.nodup_cons.mp hnd').2
      rw [List.flatMap_cons, countOcc_append]
      rcases List.mem_cons.mp hmem with heq | htail
      · have hrest : countOcc b (d'.flatMap f) = 0 := by
          refine countOcc_eq_zero_of_forall fun y hy hyb => ?_
          rcases List.mem_flatMap.mp hy with ⟨e', he', hbe'⟩
          have h1 : key y = e'.1 := hkey e' y hbe'
          have h2 : e'.1 ∈ d'.map Prod.fst := List.mem_map.mpr ⟨e', he', rfl⟩
          have h3 : key y = sid := by rw [hyb, hk]
          have h4 : e.1 = sid := by rw [← heq]
          apply hnd1
          rw [h4, ← h3, h1]
          exact h2
        rw [hrest, ← heq]
        simp
      · have hhead : countOcc b (f e) = 0 := by
          refine countOcc_eq_zero_of_forall fun y hy hyb => ?_
          have h1 : key y = e.1 := hkey e y hy
          have h3 : key y = sid := by rw [hyb, hk]
          have h2 : sid ∈ d'.map Prod.fst := List.mem_map.mpr ⟨(sid, sd), htail, rfl⟩
          apply hnd1
          rw [← h1, h3]
          exact h2
        rw [hhead, countOcc_assoc_chunks f key hkey b d' sid sd hnd2 htail hk]
        simp

/-- In an association list with distinct keys, lookup of a member's key
returns that member's value. -/
theorem assocLookup_eq_of_nodup {α : Type} :
    ∀ {d : List (String × α)} {sid : String} {sd : α},
      (d.map Prod.fst).Nodup → (sid, sd) ∈ d → assocLookup d sid = some sd
  | [], _, _, _, hmem => by simp at hmem
  | e :: d', sid, sd, hnd, hmem => by
      have hnd' : (e.1 :: d'.map Prod.fst).Nodup := by simpa using hnd
      have hnd1 : e.1 ∉ d'.map Prod.fst := (List.nodup_cons.mp hnd').1
      have hnd2 : (d'.map Prod.fst).Nodup := (List.nodup_cons.mp hnd').2
      rcases List.mem_cons.mp hmem with heq | htail
      · rw [← heq]
        simp [assocLookup]
      · have hne : e.1 ≠ sid := by
          intro h
          exact hnd1 (h ▸ List.mem_map.mpr ⟨(sid, sd), htail, rfl⟩)
        obtain ⟨k, v⟩ := e
        simp only [assocLookup, if_neg hne]
        exact assocLookup_eq_of_nodup hnd2 htail

theorem getD_eq_of_getQ {α : Type} :
    ∀ {l : List α} {i : ℕ} {x d : α}, l.get? i = some x → l.getD i d = x
  | a :: _, 0, _, _, h => by
      simp at h
      simpa [List.getD] using h
  | _ :: l', i + 1, x, d, h => by
      have h' : l'.get? i = some x := by simpa using h
      simpa [List.getD] using getD_eq_of_getQ h'

theorem mem_ite_singleton {α : Type} {c : Prop} [Decidable c] {a y : α}
    (h : y ∈ if c then [a] else []) : y = a := by
  split at h
  · simpa using h
  · simp at h

theorem countOcc_ite_singleton_ne {α : Type} [DecidableEq α] {c : Prop} [Decidable c] {a b : α}
    (h : a ≠ b) : countOcc b (if c then [a] else []) = 0 := by
  split
  · simp [countOcc, h]
  · rfl

theorem countOcc_ite_singleton_self {α : Type} [DecidableEq α] {c : Prop} [Decidable c] {a : α} :
    countOcc a (if c then [a] else []) = if c then 1 else 0 := by
  split
  · simp [countOcc]
  · rfl

/-! ## Shape of the factory output -/

theorem mem_devicesPart {i n : ℕ} {ds : List Device} {y : SensorInst}
    (hy : y ∈ (pyEnumerateFrom n ds).flatMap (fun p => deviceChunk i p.1 p.2)) :
    ∃ di, y = .systemDeviceWaterPressure i di := by
  rcases List.mem_flatMap.mp hy with ⟨p, _, hyp⟩
  unfold deviceChunk at hyp
  exact ⟨p.1, mem_ite_singleton hyp⟩

theorem mem_zonesPart {i n : ℕ} {zs : List Zone} {y : SensorInst}
    (hy : y ∈ (pyEnumerateFrom n zs).flatMap (fun p => zoneChunk i p.1 p.2)) :
    ∃ zi, y = .zoneDesiredRoomTemperatureSetpoint i zi ∨ y = .zoneCurrentRoomTemperature i zi ∨
      y = .zoneHumidity i zi ∨ y = .zoneHeatingOperatingMode i zi ∨
      y = .zoneHeatingState i zi ∨ y = .zoneCurrentSpecialFunction i zi := by
  rcases List.mem_flatMap.mp hy with ⟨p, _, hyp⟩
  refine ⟨p.1, ?_⟩
  unfold zoneChunk at hyp
  rcases List.mem_append.mp hyp with h | h
  · rcases List.mem_append.mp h with h | h
    · rcases List.mem_append.mp h with h | h
      · left
        simpa using h
      · right; left
        exact mem_ite_singleton h
    · right; right; left
      exact mem_ite_singleton h
  · simp at h
    tauto

theorem mem_circuitsPart {i n : ℕ} {cs : List Circuit} {y : SensorInst}
    (hy : y ∈ (pyEnumerateFrom n cs).flatMap (fun p => circuitChunk i p.1 p.2)) :
    ∃ ci, y = .circuitState i ci ∨ y = .circuitFlowTemperature i ci ∨
      y = .circuitHeatingCurve i ci ∨ y = .circuitMinFlowTemperatureSetpoint i ci := by
  rcases List.mem_flatMap.mp hy with ⟨p, _, hyp⟩
  refine ⟨p.1, ?_⟩
  unfold circuitChunk at hyp
  rcases List.mem_append.mp hyp with h | h
  · rcases List.mem_append.mp h with h | h
    · rcases List.mem_append.mp h with h | h
      · left
        simpa using h
      · right; left
        exact mem_ite_singleton h
    · right; right; left
      exact mem_ite_singleton h
  · right; right; right
    exact mem_ite_singleton h

theorem mem_dhwPart {i n : ℕ} {ds : List DomesticHotWater} {y : SensorInst}
    (hy : y ∈ (pyEnumerateFrom n ds).flatMap (fun p => dhwChunk i p.1 p.2)) :
    ∃ di, y = .domesticHotWaterTankTemperature i di ∨ y = .domesticHotWaterSetPoint i di ∨
      y = .domesticHotWaterOperationMode i di ∨ y = .domesticHotWaterCurrentSpecialFunction i di := by
  rcases List.mem_flatMap.mp hy with ⟨p, _, hyp⟩
  refine ⟨p.1, ?_⟩
  unfold dhwChunk at hyp
  rcases List.mem_append.mp hyp with h | h
  · left
    exact mem_ite_singleton h
  · simp at h
    tauto

theorem sysIdx_of_mem_systemChunk {m : ℕ} {s : System} {y : SensorInst}
    (hy : y ∈ systemChunk m s) : y.sysIdx = m := by
  unfold systemChunk pyEnumerate at hy
  rcases List.mem_append.mp hy with h | h
  rotate_left
  · rcases mem_dhwPart h with ⟨di, h | h | h | h⟩ <;> subst h <;> rfl
  rcases List.mem_append.mp h with h | h
  rotate_left
  · rcases mem_circuitsPart h with ⟨ci, h | h | h | h⟩ <;> subst h <;> rfl
  rcases List.mem_append.mp h with h | h
  rotate_left
  · rcases mem_zonesPart h with ⟨zi, h | h | h | h | h | h⟩ <;> subst h <;> rfl
  rcases List.mem_append.mp h with h | h
  rotate_left
  · rcases mem_devicesPart h with ⟨di, h⟩
    subst h
    rfl
  rcases List.mem_append.mp h with h | h
  rotate_left
  · have := List.mem_singleton.mp h
    subst this
    rfl
  rcases List.mem_append.mp h with h | h
  · have := mem_ite_singleton h
    subst this
    rfl
  · have := mem_ite_singleton h
    subst this
    rfl

theorem countOcc_devicesPart_zero {i n : ℕ} {ds : List Device} {b : SensorInst}
    (h : ∀ di, b ≠ .systemDeviceWaterPressure i di) :
    countOcc b ((pyEnumerateFrom n ds).flatMap (fun p => deviceChunk i p.1 p.2)) = 0 := by
  refine countOcc_eq_zero_of_forall fun y hy hyb => ?_
  rcases mem_devicesPart hy with ⟨di, hdd⟩
  rw [hyb] at hdd
  exact h di hdd

theorem countOcc_zonesPart_zero {i n : ℕ} {zs : List Zone} {b : SensorInst}
    (h : ∀ zi, b ≠ .zoneDesiredRoomTemperatureSetpoint i zi ∧ b ≠ .zoneCurrentRoomTemperature i zi ∧
      b ≠ .zoneHumidity i zi ∧ b ≠ .zoneHeatingOperatingMode i zi ∧
      b ≠ .zoneHeatingState i zi ∧ b ≠ .zoneCurrentSpecialFunction i zi) :
    countOcc b ((pyEnumerateFrom n zs).flatMap (fun p => zoneChunk i p.1 p.2)) = 0 := by
  refine countOcc_eq_zero_of_forall fun y hy hyb => ?_
  rcases mem_zonesPart hy with ⟨zi, hdd⟩
  rw [hyb] at hdd
  rcases h zi with ⟨h1, h2, h3, h4, h5, h6⟩
  tauto

theorem countOcc_circuitsPart_zero {i n : ℕ} {cs : List Circuit} {b : SensorInst}
    (h : ∀ ci, b ≠ .circuitState i ci ∧ b ≠ .circuitFlowTemperature i ci ∧
      b ≠ .circuitHeatingCurve i ci ∧ b ≠ .circuitMinFlowTemperatureSetpoint i ci) :
    countOcc b ((pyEnumerateFrom n cs).flatMap (fun p => circuitChunk i p.1 p.2)) = 0 := by
  refine countOcc_eq_zero_of_forall fun y hy hyb => ?_
  rcases mem_circuitsPart hy with ⟨ci, hdd⟩
  rw [hyb] at hdd
  rcases h ci with ⟨h1, h2, h3, h4⟩
  tauto

theorem countOcc_dhwPart_zero {i n : ℕ} {ds : List DomesticHotWater} {b : SensorInst}
    (h : ∀ di, b ≠ .domesticHotWaterTankTemperature i di ∧ b ≠ .domesticHotWaterSetPoint i di ∧
      b ≠ .domesticHotWaterOperationMode i di ∧ b ≠ .domesticHotWaterCurrentSpecialFunction i di) :
    countOcc b ((pyEnumerateFrom n ds).flatMap (fun p => dhwChunk i p.1 p.2)) = 0 := by
  refine countOcc_eq_zero_of_forall fun y hy hyb => ?_
  rcases mem_dhwPart hy with ⟨di, hdd⟩
  rw [hyb] at hdd
  rcases h di with ⟨h1, h2, h3, h4⟩
  tauto

/-- The count of any sensor carrying system index `i` in the full factory
output is its count in the chunk of system `i`. -/
theorem countOcc_createSystemSensors_eq
    {c : SystemCoordinator} {ss : List System} {i : ℕ} {s : System}
    (hc : c.data = some ss) (hs : ss.get? i = some s) (b : SensorInst) (hb : b.sysIdx = i) :
    countOcc b (createSystemSensors c) = countOcc b (systemChunk i s) := by
  have hne : ss.isEmpty = false := by
    cases ss
    · simp at hs
    · rfl
  simp only [createSystemSensors, hc, hne, Bool.false_eq_true, if_false, pyEnumerate]
  have hch := countOcc_enum_chunks systemChunk SensorInst.sysIdx
      (fun _ _ _ hy => sysIdx_of_mem_systemChunk hy) b ss 0 i s (by omega) hs
  simpa using hch

theorem countOcc_outdoor_systemChunk (i : ℕ) (s : System) :
    countOcc (SensorInst.systemOutdoorTemperature i) (systemChunk i s)
      = if s.outdoor_temperature.isSome then 1 else 0 := by
  unfold systemChunk pyEnumerate
  rw [countOcc_append, countOcc_append, countOcc_append, countOcc_append, countOcc_append,
    countOcc_append]
  rw [countOcc_ite_singleton_self, countOcc_ite_singleton_ne (by simp)]
  rw [countOcc_devicesPart_zero (by intro di; simp)]
  rw [countOcc_zonesPart_zero (by intro zi; refine ⟨?_, ?_, ?_, ?_, ?_, ?_⟩ <;> simp)]
  rw [countOcc_circuitsPart_zero (by intro ci; refine ⟨?_, ?_, ?_, ?_⟩ <;> simp)]
  rw [countOcc_dhwPart_zero (by intro di; refine ⟨?_, ?_, ?_, ?_⟩ <;> simp)]
  simp [countOcc]

theorem countOcc_pressure_systemChunk (i : ℕ) (s : System) :
    countOcc (SensorInst.systemWaterPressure i) (systemChunk i s)
      = if s.water_pressure.isSome then 1 else 0 := by
  unfold systemChunk pyEnumerate
  rw [countOcc_append, countOcc_append, countOcc_append, countOcc_append, countOcc_append,
    countOcc_append]
  rw [countOcc_ite_singleton_ne (by simp), countOcc_ite_singleton_self]
  rw [countOcc_devicesPart_zero (by intro di; simp)]
  rw [countOcc_zonesPart_zero (by intro zi; refine ⟨?_, ?_, ?_, ?_, ?_, ?_⟩ <;> simp)]
  rw [countOcc_circuitsPart_zero (by intro ci; refine ⟨?_, ?_, ?_, ?_⟩ <;> simp)]
  rw [countOcc_dhwPart_zero (by intro di; refine ⟨?_, ?_, ?_, ?_⟩ <;> simp)]
  simp [countOcc]

theorem countOcc_home_systemChunk (i : ℕ) (s : System) :
    countOcc (SensorInst.homeEntity i) (systemChunk i s) = 1 := by
  unfold systemChunk pyEnumerate
  rw [countOcc_append, countOcc_append, countOcc_append, countOcc_append, countOcc_append,
    countOcc_append]
  rw [countOcc_ite_singleton_ne (by simp), countOcc_ite_singleton_ne (by simp)]
  rw [countOcc_devicesPart_zero (by intro di; simp)]
  rw [countOcc_zonesPart_zero (by intro zi; refine ⟨?_, ?_, ?_, ?_, ?_, ?_⟩ <;> simp)]
  rw [countOcc_circuitsPart_zero (by intro ci; refine ⟨?_, ?_, ?_, ?_⟩ <;> simp)]
  rw [countOcc_dhwPart_zero (by intro di; refine ⟨?_, ?_, ?_, ?_⟩ <;> simp)]
  simp [countOcc]

theorem countOcc_tank_systemChunk {i j : ℕ} {s : System} {dhw : DomesticHotWater}
    (hj : s.domestic_hot_water.get? j = some dhw) :
    countOcc (SensorInst.domesticHotWaterTankTemperature i j) (systemChunk i s)
      = if truthyQ dhw.current_dhw_temperature then 1 else 0 := by
  unfold systemChunk pyEnumerate
  rw [countOcc_append, countOcc_append, countOcc_append, countOcc_append, countOcc_append,
    countOcc_append]
  rw [countOcc_ite_singleton_ne (by simp), countOcc_ite_singleton_ne (by simp)]
  rw [countOcc_devicesPart_zero (by intro di; simp)]
  rw [countOcc_zonesPart_zero (by intro zi; refine ⟨?_, ?_, ?_, ?_, ?_, ?_⟩ <;> simp)]
  rw [countOcc_circuitsPart_zero (by intro ci; refine ⟨?_, ?_, ?_, ?_⟩ <;> simp)]
  have hkey : ∀ m x y, y ∈ dhwChunk i m x → SensorInst.dhwIdx y = m := by
    intro m x y hy
    unfold dhwChunk at hy
    rcases List.mem_append.mp hy with h | h
    · rw [mem_ite_singleton h]
      rfl
    · simp at h
      rcases h with h | h | h <;> subst h <;> rfl
  have hch := countOcc_enum_chunks (dhwChunk i) SensorInst.dhwIdx hkey
      (SensorInst.domesticHotWaterTankTemperature i j) s.domestic_hot_water 0 j dhw
      (by simp [SensorInst.dhwIdx]) hj
  rw [hch]
  unfold dhwChunk
  simp only [Nat.zero_add]
  rw [countOcc_append, countOcc_ite_singleton_self]
  simp [countOcc]

/-! ## Concrete data for witnesses and counterexamples -/

def wHome : Home := ⟨"H", "VR", "1.0", []⟩

/-- A domestic hot water unit whose current temperature is present (not
`None`) but equal to `0`, hence falsy in Python. -/
def wDhwZero : DomesticHotWater := ⟨0, some 0, some 50, "Manual", "Regular"⟩

def wDhwWarm : DomesticHotWater := ⟨0, some 47, some 50, "Manual", "Regular"⟩

def wSystemC1 : System := ⟨"sys1", wHome, "Vaillant", [], none, none, [], [], [], [wDhwZero]⟩

def wCoordC1 : SystemCoordinator := ⟨some [wSystemC1], true⟩

def wSystemC2 : System :=
  ⟨"sys1", wHome, "Vaillant", [], some (21/2 : ℚ), none, [], [], [], [wDhwWarm]⟩

def wCoordC2 : SystemCoordinator := ⟨some [wSystemC2], true⟩

/-! ## Claim C1 -/

/-- C1, counterexample: in the cached data of `wCoordC1` the only
system's only domestic hot water unit has `current_dhw_temperature = 0`,
which is present (not `None`), yet `create_system_sensors` instantiates no
`DomesticHotWaterTankTemperatureSensor` for it — the source guards the
sensor with Python truthiness (`if dhw.current_dhw_temperature:`), not
with `is not None`. -/
theorem c1_counterexample :
    wSystemC1.domestic_hot_water.get? 0 = some wDhwZero ∧
    wDhwZero.current_dhw_temperature ≠ none ∧
    wCoordC1.data = some [wSystemC1] ∧
    countOcc (SensorInst.domesticHotWaterTankTemperature 0 0) (createSystemSensors wCoordC1)
      = 0 := by
  refine ⟨rfl, by decide, rfl, by decide⟩

/-- C1 (amended): for every system in the system coordinator's cached
data and every domestic hot water unit of that system,
`create_system_sensors` instantiates exactly one
`DomesticHotWaterTankTemperatureSensor` for that unit when its
`current_dhw_temperature` is truthy (present and non-zero), and none
otherwise. -/
theorem c1_tank_temperature_sensor_iff_truthy
    (c : SystemCoordinator) (ss : List System) (i : ℕ) (s : System) (j : ℕ)
    (dhw : DomesticHotWater)
    (hc : c.data = some ss) (hs : ss.get? i = some s)
    (hj : s.domestic_hot_water.get? j = some dhw) :
    countOcc (SensorInst.domesticHotWaterTankTemperature i j) (createSystemSensors c)
      = if truthyQ dhw.current_dhw_temperature then 1 else 0 := by
  rw [countOcc_createSystemSensors_eq hc hs (SensorInst.domesticHotWaterTankTemperature i j) rfl]
  exact countOcc_tank_systemChunk hj

/-- C1 witness: on concrete cached data with a truthy tank temperature the
amended claim yields exactly one tank temperature sensor. -/
theorem c1_tank_temperature_witness :
    countOcc (SensorInst.domesticHotWaterTankTemperature 0 0) (createSystemSensors wCoordC2)
      = 1 := by
  have h := c1_tank_temperature_sensor_iff_truthy wCoordC2 [wSystemC2] 0 wSystemC2 0 wDhwWarm
    rfl rfl rfl
  rw [h]
  decide

/-! ## Claim C2 -/

/-- C2: for every system at index `i` in the system coordinator's cached
data, `create_system_sensors` appends a `SystemOutdoorTemperatureSensor`
for `i` exactly when `outdoor_temperature` is not `None`, a
`SystemWaterPressureSensor` for `i` exactly when `water_pressure` is not
`None`, and always exactly one `HomeEntity` for `i`. -/
theorem c2_top_level_sensors
    (c : SystemCoordinator) (ss : List System) (i : ℕ) (s : System)
    (hc : c.data = some ss) (hs : ss.get? i = some s) :
    countOcc (SensorInst.systemOutdoorTemperature i) (createSystemSensors c)
        = (if s.outdoor_temperature.isSome then 1 else 0) ∧
    countOcc (SensorInst.systemWaterPressure i) (createSystemSensors c)
        = (if s.water_pressure.isSome then 1 else 0) ∧
    countOcc (SensorInst.homeEntity i) (createSystemSensors c) = 1 := by
  refine ⟨?_, ?_, ?_⟩
  · rw [countOcc_createSystemSensors_eq hc hs (SensorInst.systemOutdoorTemperature i) rfl]
    exact countOcc_outdoor_systemChunk i s
  · rw [countOcc_createSystemSensors_eq hc hs (SensorInst.systemWaterPressure i) rfl]
    exact countOcc_pressure_systemChunk i s
  · rw [countOcc_createSystemSensors_eq hc hs (SensorInst.homeEntity i) rfl]
    exact countOcc_home_systemChunk i s

/-- C2 witness: on concrete cached data with an outdoor temperature but no
water pressure, the factory emits one outdoor temperature sensor, no water
pressure sensor, and one `HomeEntity`. -/
theorem c2_top_level_sensors_witness :
    countOcc (SensorInst.systemOutdoorTemperature 0) (createSystemSensors wCoordC2) = 1 ∧
    countOcc (SensorInst.systemWaterPressure 0) (createSystemSensors wCoordC2) = 0 ∧
    countOcc (SensorInst.homeEntity 0) (createSystemSensors wCoordC2) = 1 := by
  have h := c2_top_level_sensors wCoordC2 [wSystemC2] 0 wSystemC2 rfl rfl
  refine ⟨?_, ?_, h.2.2⟩
  · rw [h.1]
    decide
  · rw [h.2.1]
    decide

theorem countOcc_cons {α : Type} [DecidableEq α] (x a : α) (l : List α) :
    countOcc a (x :: l) = (if x = a then 1 else 0) + countOcc a l := rfl

/-! ## Shape of the daily factory output -/

theorem mem_dailyInnerChunk {d : List (String × DailySystem)} {sid : String} {m : ℕ}
    {row : List DeviceData} {y : DailySensor} (hy : y ∈ dailyInnerChunk d sid m row) :
    y = .efficiency sid (some m) ∨ ∃ da, y = .dataSensor sid m da := by
  unfold dailyInnerChunk at hy
  split at hy
  · simp at hy
  · rcases List.mem_cons.mp hy with h | h
    · exact Or.inl h
    · rcases List.mem_map.mp h with ⟨q, _, hq⟩
      exact Or.inr ⟨q.1, hq.symm⟩

theorem sysId_of_mem_dailyChunk {d : List (String × DailySystem)} {e : String × DailySystem}
    {y : DailySensor} (hy : y ∈ dailyChunk d e) : y.sysId = e.1 := by
  unfold dailyChunk at hy
  rcases List.mem_cons.mp hy with h | h
  · subst h
    rfl
  · rcases List.mem_flatMap.mp h with ⟨p, _, hyp⟩
    rcases mem_dailyInnerChunk hyp with h | ⟨da, h⟩ <;> subst h <;> rfl

theorem deIdx_of_mem_dailyInnerChunk {d : List (String × DailySystem)} {sid : String} {m : ℕ}
    {row : List DeviceData} {y : DailySensor} (hy : y ∈ dailyInnerChunk d sid m row) :
    y.deIdx = m := by
  rcases mem_dailyInnerChunk hy with h | ⟨da, h⟩ <;> subst h <;> rfl

/-- The count of any daily sensor carrying system id `sid` in the full
factory output is its count in the chunk of the dict entry of `sid`,
provided the dict keys are distinct (always true of a Python dict). -/
theorem countOcc_createDailyDataSensors_eq
    {c : DailyDataCoordinator} {d : List (String × DailySystem)} {sid : String}
    {sd : DailySystem}
    (hc : c.data = some d) (hnd : (d.map Prod.fst).Nodup) (hmem : (sid, sd) ∈ d)
    (b : DailySensor) (hb : b.sysId = sid) :
    countOcc b (createDailyDataSensors c) = countOcc b (dailyChunk d (sid, sd)) := by
  have hne : d.isEmpty = false := by
    cases d
    · simp at hmem
    · rfl
  simp only [createDailyDataSensors, hc, hne, Bool.false_eq_true, if_false]
  exact countOcc_assoc_chunks (dailyChunk d) DailySensor.sysId
    (fun _ _ hy => sysId_of_mem_dailyChunk hy) b d sid sd hnd hmem hb

theorem countOcc_effNone_dailyChunk {d : List (String × DailySystem)} {sid : String}
    {sd : DailySystem} :
    countOcc (DailySensor.efficiency sid none) (dailyChunk d (sid, sd)) = 1 := by
  unfold dailyChunk
  rw [countOcc_cons, if_pos rfl]
  have hrest : countOcc (DailySensor.efficiency sid none)
      ((pyEnumerate (sid, sd).2.devices_data).flatMap
        (fun p => dailyInnerChunk d (sid, sd).1 p.1 p.2)) = 0 := by
    refine countOcc_eq_zero_of_forall fun y hy hyb => ?_
    rcases List.mem_flatMap.mp hy with ⟨p, _, hyp⟩
    rcases mem_dailyInnerChunk hyp with h | ⟨da, h⟩ <;> rw [hyb] at h <;> simp at h
  rw [hrest]

theorem countOcc_effSome_dailyChunk {d : List (String × DailySystem)} {sid : String}
    {sd : DailySystem} {de : ℕ} {row : List DeviceData}
    (hrow : sd.devices_data.get? de = some row) :
    countOcc (DailySensor.efficiency sid (some de)) (dailyChunk d (sid, sd))
      = if row.length = 0 then 0 else 1 := by
  unfold dailyChunk pyEnumerate
  rw [countOcc_cons, if_neg (by simp)]
  have hch := countOcc_enum_chunks (dailyInnerChunk d sid) DailySensor.deIdx
      (fun _ _ _ hy => deIdx_of_mem_dailyInnerChunk hy)
      (DailySensor.efficiency sid (some de)) sd.devices_data 0 de row
      (by simp [DailySensor.deIdx]) hrow
  simp only [Nat.zero_add] at hch
  rw [hch]
  unfold dailyInnerChunk
  split
  · rfl
  · rw [countOcc_cons, if_pos rfl]
    have hmap : countOcc (DailySensor.efficiency sid (some de))
        ((pyEnumerate ((lookupDailyD d sid).devices_data.getD de [])).map
          (fun q => DailySensor.dataSensor sid de q.1)) = 0 := by
      refine countOcc_eq_zero_of_forall fun y hy hyb => ?_
      rcases List.mem_map.mp hy with ⟨q, _, hq⟩
      rw [hyb] at hq
      simp at hq
    rw [hmap]

theorem countOcc_dataSensor_dailyChunk {d : List (String × DailySystem)} {sid : String}
    {sd : DailySystem} {de da : ℕ} {row : List DeviceData}
    (hlook : lookupDailyD d sid = sd) (hrow : sd.devices_data.get? de = some row) :
    countOcc (DailySensor.dataSensor sid de da) (dailyChunk d (sid, sd))
      = if row.length = 0 then 0 else (if da < row.length then 1 else 0) := by
  unfold dailyChunk pyEnumerate
  rw [countOcc_cons, if_neg (by simp)]
  have hch := countOcc_enum_chunks (dailyInnerChunk d sid) DailySensor.deIdx
      (fun _ _ _ hy => deIdx_of_mem_dailyInnerChunk hy)
      (DailySensor.dataSensor sid de da) sd.devices_data 0 de row
      (by simp [DailySensor.deIdx]) hrow
  simp only [Nat.zero_add] at hch
  rw [hch]
  unfold dailyInnerChunk
  have hgetd : (lookupDailyD d sid).devices_data.getD de [] = row := by
    rw [hlook]
    exact getD_eq_of_getQ hrow
  split
  · rfl
  · rw [countOcc_cons, if_neg (by simp), hgetd]
    have hmap := countOcc_enum_map (fun j => DailySensor.dataSensor sid de j)
      (fun m m' h => by simpa using h) da row 0
    unfold pyEnumerate
    rw [hmap]
    simp

/-! ## Claim C3 -/

/-- C3: for every system id in the daily-data coordinator's cached data
(a dict, hence with distinct keys), `create_daily_data_sensors` creates
exactly one system-level `EfficiencySensor` (`de_index` `None`); for each
device-data list of that system it creates nothing when the list is empty,
and exactly one per-device `EfficiencySensor` plus exactly one
`DataSensor` per entry of the list (and none beyond it) when it is
non-empty — all in the one flat returned list. -/
theorem c3_daily_data_sensor_counts
    (c : DailyDataCoordinator) (d : List (String × DailySystem)) (sid : String)
    (sd : DailySystem)
    (hc : c.data = some d) (hnd : (d.map Prod.fst).Nodup) (hmem : (sid, sd) ∈ d) :
    countOcc (DailySensor.efficiency sid none) (createDailyDataSensors c) = 1 ∧
    (∀ de row, sd.devices_data.get? de = some row →
      (row = [] →
        countOcc (DailySensor.efficiency sid (some de)) (createDailyDataSensors c) = 0 ∧
        ∀ da, countOcc (DailySensor.dataSensor sid de da) (createDailyDataSensors c) = 0) ∧
      (row ≠ [] →
        countOcc (DailySensor.efficiency sid (some de)) (createDailyDataSensors c) = 1 ∧
        (∀ da, da < row.length →
          countOcc (DailySensor.dataSensor sid de da) (createDailyDataSensors c) = 1) ∧
        (∀ da, row.length ≤ da →
          countOcc (DailySensor.dataSensor sid de da) (createDailyDataSensors c) = 0))) := by
  have hlook : lookupDailyD d sid = sd := by
    unfold lookupDailyD
    rw [assocLookup_eq_of_nodup hnd hmem]
    rfl
  constructor
  · rw [countOcc_createDailyDataSensors_eq hc hnd hmem (DailySensor.efficiency sid none) rfl]
    exact countOcc_effNone_dailyChunk
  · intro de row hrow
    constructor
    · intro hempty
      constructor
      · rw [countOcc_createDailyDataSensors_eq hc hnd hmem
          (DailySensor.efficiency sid (some de)) rfl, countOcc_effSome_dailyChunk hrow]
        simp [hempty]
      · intro da
        rw [countOcc_createDailyDataSensors_eq hc hnd hmem
          (DailySensor.dataSensor sid de da) rfl, countOcc_dataSensor_dailyChunk hlook hrow]
        simp [hempty]
    · intro hne
      have hlen : ¬ row.length = 0 := fun h => hne (List.length_eq_zero.mp h)
      refine ⟨?_, ?_, ?_⟩
      · rw [countOcc_createDailyDataSensors_eq hc hnd hmem
          (DailySensor.efficiency sid (some de)) rfl, countOcc_effSome_dailyChunk hrow,
          if_neg hlen]
      · intro da hda
        rw [countOcc_createDailyDataSensors_eq hc hnd hmem
          (DailySensor.dataSensor sid de da) rfl, countOcc_dataSensor_dailyChunk hlook hrow,
          if_neg hlen, if_pos hda]
      · intro da hda
        rw [countOcc_createDailyDataSensors_eq hc hnd hmem
          (DailySensor.dataSensor sid de da) rfl, countOcc_dataSensor_dailyChunk hlook hrow,
          if_neg hlen, if_neg (by omega)]

def wDD : DeviceData := ⟨none, some "HEAT_GENERATED", "heating", [⟨some 10⟩]⟩

def wDailySys : DailySystem := ⟨"H", [[wDD], []]⟩

def wDailyCoord : DailyDataCoordinator := ⟨some [("s", wDailySys)], true⟩

/-- C3 witness: on a concrete dict with one system holding one non-empty
and one empty device-data list, the factory creates one system-level
efficiency sensor, one per-device efficiency sensor and one data sensor
for the non-empty list, and nothing for the empty one. -/
theorem c3_daily_data_sensor_counts_witness :
    countOcc (DailySensor.efficiency "s" none) (createDailyDataSensors wDailyCoord) = 1 ∧
    countOcc (DailySensor.efficiency "s" (some 0)) (createDailyDataSensors wDailyCoord) = 1 ∧
    countOcc (DailySensor.dataSensor "s" 0 0) (createDailyDataSensors wDailyCoord) = 1 ∧
    countOcc (DailySensor.efficiency "s" (some 1)) (createDailyDataSensors wDailyCoord) = 0 := by
  have h := c3_daily_data_sensor_counts wDailyCoord [("s", wDailySys)] "s" wDailySys rfl
    (by simp) (by simp)
  refine ⟨h.1, ?_, ?_, ?_⟩
  · exact ((h.2 0 [wDD] rfl).2 (by simp)).1
  · exact ((h.2 0 [wDD] rfl).2 (by simp)).2.1 0 (by simp)
  · exact ((h.2 1 [] rfl).1 rfl).1

theorem mem_of_getLastQ {α : Type} : ∀ {l : List α} {a : α}, l.getLast? = some a → a ∈ l
  | [x], a, h => by
      simp [List.getLast?] at h
      simp [h]
  | x :: y :: l', a, h => by
      have h' : (y :: l').getLast? = some a := by
        rw [List.getLast?_cons_cons] at h
        exact h
      exact List.mem_cons_of_mem x (mem_of_getLastQ h')

/-- The content of `DATA_UNIT_MAP`: lookup succeeds exactly on the five
known keys, always yielding the watt-hour constant. -/
theorem assocLookup_unit_map (et : String) :
    assocLookup DATA_UNIT_MAP et =
      if "CONSUMED_ELECTRICAL_ENERGY" = et ∨ "EARNED_ENVIRONMENT_ENERGY" = et ∨
          "HEAT_GENERATED" = et ∨ "CONSUMED_PRIMARY_ENERGY" = et ∨ "EARNED_SOLAR_ENERGY" = et
      then some ENERGY_WATT_HOUR else none := by
  simp only [DATA_UNIT_MAP, assocLookup]
  split_ifs <;> tauto

/-- Evaluated form of the `DataSensor.__init__` unit selection, given the
device data. -/
theorem dataSensorInitUnitD_eq (sid : String) (de da : ℕ)
    (dat : Option (List (String × DailySystem))) (dd : Option DeviceData)
    (h : dsDeviceDataD sid de da dat = .ok dd) :
    dataSensorInitUnitD sid de da dat =
      .ok (dd.bind (fun d => d.energy_type.bind (fun et => assocLookup DATA_UNIT_MAP et))) := by
  unfold dataSensorInitUnitD
  rw [h]
  simp only [PyResult.bind]
  cases dd with
  | none => simp
  | some dv => cases het : dv.energy_type <;> simp [het]

/-- Evaluated form of `DataSensor.native_value`, given the device data. -/
theorem dsNativeValueD_eq (sid : String) (de da : ℕ)
    (dat : Option (List (String × DailySystem))) (dd : Option DeviceData)
    (h : dsDeviceDataD sid de da dat = .ok dd) :
    dsNativeValueD sid de da dat =
      .ok (dd.bind (fun ddv => ((ddv.data.filter (fun b => b.value.isSome)).getLast?).bind
        (fun b => b.value.map PyVal.num))) := by
  have hbk : dsDataBucketD sid de da dat =
      .ok (dd.bind (fun ddv => (ddv.data.filter (fun b => b.value.isSome)).getLast?)) := by
    unfold dsDataBucketD
    rw [h]
    cases dd with
    | none => rfl
    | some dv => rfl
  unfold dsNativeValueD
  rw [hbk]
  cases dd with
  | none => rfl
  | some dv =>
      simp only [Option.some_bind]
      cases hb : (dv.data.filter (fun b => b.value.isSome)).getLast? <;> rfl

/-! ## Claim C4 -/

/-- C4: a `DataSensor`'s native unit of measurement is the watt-hour
constant exactly when its device data is present at construction time and
its `energy_type` is one of the five keys of `DATA_UNIT_MAP`; no other
unit is ever selected; and the stored native value is an unconverted
bucket value from the raw device data. -/
theorem c4_unit_selection
    (sid : String) (de da : ℕ) (c : DailyDataCoordinator) (dd : Option DeviceData)
    (h : dsDeviceData sid de da c = .ok dd) :
    (dataSensorInitUnit sid de da c = .ok (some ENERGY_WATT_HOUR) ↔
      ∃ dv, dd = some dv ∧
        (dv.energy_type = some "CONSUMED_ELECTRICAL_ENERGY" ∨
         dv.energy_type = some "EARNED_ENVIRONMENT_ENERGY" ∨
         dv.energy_type = some "HEAT_GENERATED" ∨
         dv.energy_type = some "CONSUMED_PRIMARY_ENERGY" ∨
         dv.energy_type = some "EARNED_SOLAR_ENERGY")) ∧
    (∀ u, dataSensorInitUnit sid de da c = .ok (some u) → u = ENERGY_WATT_HOUR) ∧
    (∀ q, dsNativeValue sid de da c = .ok (some (PyVal.num q)) →
      ∃ dv b, dd = some dv ∧ b ∈ dv.data ∧ b.value = some q) := by
  have h' : dsDeviceDataD sid de da c.data = .ok dd := h
  have hu := dataSensorInitUnitD_eq sid de da c.data dd h'
  have hn := dsNativeValueD_eq sid de da c.data dd h'
  refine ⟨?_, ?_, ?_⟩
  · show dataSensorInitUnitD sid de da c.data = _ ↔ _
    rw [hu]
    cases dd with
    | none => simp
    | some dv =>
        cases het : dv.energy_type with
        | none => simp [het]
        | some et =>
            simp only [Option.some_bind, het, PyResult.ok.injEq]
            rw [assocLookup_unit_map et]
            constructor
            · intro hok
              refine ⟨dv, rfl, ?_⟩
              rw [het]
              by_cases hc5 : "CONSUMED_ELECTRICAL_ENERGY" = et ∨ "EARNED_ENVIRONMENT_ENERGY" = et ∨
                  "HEAT_GENERATED" = et ∨ "CONSUMED_PRIMARY_ENERGY" = et ∨
                  "EARNED_SOLAR_ENERGY" = et
              · rcases hc5 with h5 | h5 | h5 | h5 | h5 <;> rw [← h5] <;> tauto
              · rw [if_neg hc5] at hok
                exact absurd hok (by simp)
            · intro hex
              rcases hex with ⟨dv', hdv', h5⟩
              have hdv2 : dv' = dv := by
                injection hdv' with hh
                exact hh.symm
              subst hdv2
              rw [het] at h5
              have hc5 : "CONSUMED_ELECTRICAL_ENERGY" = et ∨ "EARNED_ENVIRONMENT_ENERGY" = et ∨
                  "HEAT_GENERATED" = et ∨ "CONSUMED_PRIMARY_ENERGY" = et ∨
                  "EARNED_SOLAR_ENERGY" = et := by
                rcases h5 with h5 | h5 | h5 | h5 | h5 <;> injection h5 with hh <;> tauto
              rw [if_pos hc5]
  · intro u huu
    replace huu : dataSensorInitUnitD sid de da c.data = .ok (some u) := huu
    rw [hu] at huu
    cases dd with
    | none => exact absurd huu (by simp)
    | some dv =>
        cases het : dv.energy_type with
        | none =>
            simp only [Option.some_bind, het] at huu
            exact absurd huu (by simp)
        | some et =>
            simp only [Option.some_bind, het, assocLookup_unit_map et,
              PyResult.ok.injEq] at huu
            by_cases hc5 : "CONSUMED_ELECTRICAL_ENERGY" = et ∨ "EARNED_ENVIRONMENT_ENERGY" = et ∨
                "HEAT_GENERATED" = et ∨ "CONSUMED_PRIMARY_ENERGY" = et ∨
                "EARNED_SOLAR_ENERGY" = et
            · rw [if_pos hc5] at huu
              injection huu with hh
              exact hh.symm
            · rw [if_neg hc5] at huu
              exact absurd huu (by simp)
  · intro q hq
    replace hq : dsNativeValueD sid de da c.data = .ok (some (PyVal.num q)) := hq
    rw [hn] at hq
    cases dd with
    | none => exact absurd hq (by simp)
    | some dv =>
        simp only [Option.some_bind] at hq
        cases hb : (dv.data.filter (fun b => b.value.isSome)).getLast? with
        | none =>
            rw [hb] at hq
            exact absurd hq (by simp)
        | some b =>
            rw [hb] at hq
            simp only [Option.some_bind] at hq
            refine ⟨dv, b, rfl, List.mem_of_mem_filter (mem_of_getLastQ hb), ?_⟩
            cases hv : b.value with
            | none =>
                rw [hv] at hq
                exact absurd hq (by simp)
            | some v =>
                rw [hv] at hq
                have h1 : some (PyVal.num v) = some (PyVal.num q) := by
                  simpa using hq
                have h2 : PyVal.num v = PyVal.num q := by injection h1
                have h3 : v = q := by injection h2
                rw [h3]

def wDDcons : DeviceData := ⟨none, some "CONSUMED_ELECTRICAL_ENERGY", "heating", [⟨some 5⟩]⟩

def wDailySys9 : DailySystem := ⟨"H", [[wDDcons, wDD]]⟩

def wDailyCoord9 : DailyDataCoordinator := ⟨some [("s", wDailySys9)], true⟩

/-- C4 witness: a `DataSensor` over concrete device data with energy type
`CONSUMED_ELECTRICAL_ENERGY` gets the watt-hour unit. -/
theorem c4_unit_selection_witness :
    dataSensorInitUnit "s" 0 0 wDailyCoord9 = .ok (some ENERGY_WATT_HOUR) := by
  have h := (c4_unit_selection "s" 0 0 wDailyCoord9 (some wDDcons) (by decide)).1
  exact h.mpr ⟨wDDcons, rfl, Or.inl rfl⟩

/-! ## Claim C5 -/

/-- C5: `SystemOutdoorTemperatureSensor.native_value` (resp.
`SystemWaterPressureSensor.native_value`) with stored index `i` is exactly
the fixed path `coordinator.data[i].outdoor_temperature` (resp.
`.water_pressure`) rounded to one decimal place when present, and `None`
otherwise. -/
theorem c5_fixed_path_native_value
    (c : SystemCoordinator) (ss : List System) (i : ℕ) (s : System)
    (hc : c.data = some ss) (hs : ss.get? i = some s) :
    sysNativeValue (SensorInst.systemOutdoorTemperature i) c
      = .ok (s.outdoor_temperature.map (fun t => PyVal.num (pyRoundTo 1 t))) ∧
    sysNativeValue (SensorInst.systemWaterPressure i) c
      = .ok (s.water_pressure.map (fun t => PyVal.num (pyRoundTo 1 t))) := by
  have hat : ∀ b : Bool, systemAt ⟨c.data, b⟩ i = .ok s := by
    intro b
    rw [hc]
    show pyListIndex ss i = .ok s
    unfold pyListIndex
    rw [hs]
  constructor
  · show sysNativeValueData _ c.data = _
    simp only [sysNativeValueData]
    rw [hat true]
    simp only [PyResult.bind]
    cases s.outdoor_temperature <;> rfl
  · show sysNativeValueData _ c.data = _
    simp only [sysNativeValueData]
    rw [hat true]
    simp only [PyResult.bind]
    cases s.water_pressure <;> rfl

/-- C5 witness: on concrete data, the outdoor temperature `10.5` is
reported (rounded to itself at one decimal place) and the absent water
pressure yields `None`. -/
theorem c5_fixed_path_native_value_witness :
    sysNativeValue (SensorInst.systemOutdoorTemperature 0) wCoordC2
      = .ok (some (PyVal.num (21/2))) ∧
    sysNativeValue (SensorInst.systemWaterPressure 0) wCoordC2 = .ok none := by
  have h := c5_fixed_path_native_value wCoordC2 [wSystemC2] 0 wSystemC2 rfl rfl
  refine ⟨?_, ?_⟩
  · rw [h.1]
    have hr : pyRoundTo 1 ((21 : ℚ)/2) = 21/2 := by
      simp only [pyRoundTo, roundHalfEven]
      norm_num
    simp [wSystemC2, hr]
  · rw [h.2]
    rfl

/-! ## Claim C8 -/

/-- C8: when a coordinator's cached data is absent (`None`) or empty
(falsy), the corresponding factory returns the empty list without
raising. -/
theorem c8_empty_data_returns_empty
    (c : SystemCoordinator) (dc : DailyDataCoordinator)
    (hc : c.data = none ∨ c.data = some [])
    (hd : dc.data = none ∨ dc.data = some []) :
    createSystemSensors c = [] ∧ createDailyDataSensors dc = [] := by
  constructor
  · rcases hc with h | h <;> simp [createSystemSensors, h]
  · rcases hd with h | h <;> simp [createDailyDataSensors, h]

/-- C8 witness: both factories on never-refreshed coordinators
(`data = None`). -/
theorem c8_empty_data_returns_empty_witness :
    createSystemSensors ⟨none, true⟩ = [] ∧ createDailyDataSensors ⟨none, true⟩ = [] :=
  c8_empty_data_returns_empty ⟨none, true⟩ ⟨none, true⟩ (Or.inl rfl) (Or.inl rfl)

/-! ## Claim C9 -/

/-- C9: `EfficiencySensor.native_value` divides only under its guard:
when `energy_consumed` evaluates to `ec > 0` the result is
`heat_energy_generated / ec` rounded to one decimal place (and the
divisor is non-zero); otherwise the result is `None` and no division is
performed. -/
theorem c9_efficiency_division_guard
    (sid : String) (de : Option ℕ) (c : DailyDataCoordinator) (ec : ℚ)
    (h : effEnergyConsumed sid de c = .ok ec) :
    (0 < ec → ec ≠ 0 ∧ effNativeValue sid de c
        = (effHeatGenerated sid de c).bind
            (fun hg => .ok (some (.num (pyRoundTo 1 (hg / ec)))))) ∧
    (¬ 0 < ec → effNativeValue sid de c = .ok none) := by
  have h' : effEnergyConsumedD sid de c.data = .ok ec := h
  have hv : effNativeValue sid de c =
      if 0 < ec then (effHeatGeneratedD sid de c.data).bind
        (fun hg => .ok (some (.num (pyRoundTo 1 (hg / ec)))))
      else .ok none := by
    show effNativeValueD sid de c.data = _
    unfold effNativeValueD
    rw [h']
    rfl
  constructor
  · intro hpos
    refine ⟨ne_of_gt hpos, ?_⟩
    rw [hv, if_pos hpos]
    rfl
  · intro hneg
    rw [hv, if_neg hneg]

/-- C9 witness: concrete daily data with 5 units consumed and 10 units of
heat generated yields an efficiency of 2. -/
theorem c9_efficiency_division_guard_witness :
    effNativeValue "s" none wDailyCoord9 = .ok (some (PyVal.num 2)) := by
  have hec : effEnergyConsumed "s" none wDailyCoord9 = .ok 5 := by
    show effEnergyConsumedD "s" none wDailyCoord9.data = .ok 5
    have h1 : effDeviceDataListD "s" none wDailyCoord9.data = .ok [wDDcons, wDD] := by decide
    unfold effEnergyConsumedD
    rw [h1]
    simp only [PyResult.bind]
    have h2 : List.filterMap (effSummand "CONSUMED_ELECTRICAL_ENERGY") [wDDcons, wDD]
        = [(5 : ℚ)] := by decide
    rw [h2]
    have h3 : [(5 : ℚ)].sum = 5 := by simp
    rw [h3]
  have hhg : effHeatGenerated "s" none wDailyCoord9 = .ok 10 := by
    show effHeatGeneratedD "s" none wDailyCoord9.data = .ok 10
    have h1 : effDeviceDataListD "s" none wDailyCoord9.data = .ok [wDDcons, wDD] := by decide
    unfold effHeatGeneratedD
    rw [h1]
    simp only [PyResult.bind]
    have h2 : List.filterMap (effSummand "HEAT_GENERATED") [wDDcons, wDD]
        = [(10 : ℚ)] := by decide
    rw [h2]
    have h3 : [(10 : ℚ)].sum = 10 := by simp
    rw [h3]
  have h := ((c9_efficiency_division_guard "s" none wDailyCoord9 5 hec).1 (by norm_num)).2
  rw [h, hhg]
  simp only [PyResult.bind]
  have hr : pyRoundTo 1 ((10 : ℚ)/5) = 2 := by
    simp only [pyRoundTo, roundHalfEven]
    norm_num
  rw [hr]

/-! ## Claim C10 -/

/-- C10: for a `DataSensor` whose `system_id` is present in the cached
data but whose `de_index` or `da_index` is out of range of the current
`devices_data` lists, `device_data` returns `None`, and `name`,
`unique_id`, `device_info` and `native_value` all return `None` rather
than raising an index error. -/
theorem c10_out_of_range_returns_none
    (sid : String) (de da : ℕ) (c : DailyDataCoordinator)
    (d : List (String × DailySystem)) (sd : DailySystem)
    (hc : c.data = some d) (hsd : assocLookup d sid = some sd)
    (hrange : sd.devices_data.length ≤ de ∨
      ∃ row, sd.devices_data.get? de = some row ∧ row.length ≤ da) :
    dsDeviceData sid de da c = .ok none ∧ dsName sid de da c = .ok none ∧
    dsUniqueId sid de da c = .ok none ∧ dsDeviceInfo sid de da c = .ok none ∧
    dsNativeValue sid de da c = .ok none := by
  have hsys : dailySystemFor c.data sid = .ok sd := by
    rw [hc]
    show (match assocLookup d sid with
      | some sys => PyResult.ok sys
      | none => PyResult.exn) = .ok sd
    rw [hsd]
  have hdd : dsDeviceDataD sid de da c.data = .ok none := by
    unfold dsDeviceDataD
    rw [hsys]
    simp only [PyResult.bind]
    rcases hrange with h | ⟨row, hrow, hda⟩
    · rw [if_pos h]
    · have hlt : ¬ sd.devices_data.length ≤ de := fun hle => by
        rw [List.get?_eq_none.mpr hle] at hrow
        exact Option.noConfusion hrow
      rw [if_neg hlt]
      unfold pyListIndex
      rw [hrow]
      simp only [PyResult.bind]
      rw [if_pos hda]
  have hdev : dsDeviceD sid de da c.data = .ok none := by
    unfold dsDeviceD
    rw [hdd]
    rfl
  refine ⟨hdd, ?_, ?_, ?_, ?_⟩
  · show dsNameD sid de da c.data = .ok none
    unfold dsNameD
    rw [hdev]
    simp only [PyResult.bind]
    rw [hdd]
  · show dsUniqueIdD sid de da c.data = .ok none
    unfold dsUniqueIdD
    rw [hdev]
    rfl
  · show dsDeviceInfoD sid de da c.data = .ok none
    unfold dsDeviceInfoD
    rw [hdev]
    rfl
  · show dsNativeValueD sid de da c.data = .ok none
    unfold dsNativeValueD dsDataBucketD
    rw [hdd]
    rfl

/-- C10 witness: `system_id` present but `de_index = 5` out of range of
the two device-data lists. -/
theorem c10_out_of_range_returns_none_witness :
    dsDeviceData "s" 5 0 wDailyCoord = .ok none ∧ dsName "s" 5 0 wDailyCoord = .ok none ∧
    dsUniqueId "s" 5 0 wDailyCoord = .ok none ∧ dsDeviceInfo "s" 5 0 wDailyCoord = .ok none ∧
    dsNativeValue "s" 5 0 wDailyCoord = .ok none :=
  c10_out_of_range_returns_none "s" 5 0 wDailyCoord [("s", wDailySys)] wDailySys rfl
    (by decide) (Or.inl (by decide))

/-! ## Claim C6 -/

/-- C6: `create_system_sensors`, `create_daily_data_sensors` and every
sensor property accessor (`name`, `unique_id`, `native_value`,
`device_info`, `extra_state_attributes`) only read the coordinators'
cached data: rendered as state-passing operations, each returns the state
— and in particular both coordinators' `.data` — unchanged. -/
theorem c6_operations_preserve_state (st : HassState) (k : SensorInst) (dk : DailySensor) :
    (createSystemSensorsOp st).2 = st ∧ (createDailyDataSensorsOp st).2 = st ∧
    (sysNameOp k st).2 = st ∧ (sysUniqueIdOp k st).2 = st ∧
    (sysNativeValueOp k st).2 = st ∧ (sysDeviceInfoOp k st).2 = st ∧
    (sysExtraStateAttributesOp k st).2 = st ∧
    (dailyNameOp dk st).2 = st ∧ (dailyUniqueIdOp dk st).2 = st ∧
    (dailyNativeValueOp dk st).2 = st ∧ (dailyDeviceInfoOp dk st).2 = st ∧
    (dailyExtraStateAttributesOp dk st).2 = st :=
  ⟨rfl, rfl, rfl, rfl, rfl, rfl, rfl, rfl, rfl, rfl, rfl, rfl⟩

/-! ## Claim C7 -/

/-- C7: every derived sensor property (`name`, `unique_id`,
`native_value`, `device_info`) is a deterministic function of the
coordinator's cached data and the sensor's stored indices: two
coordinators agreeing on `.data` — whatever their remaining framework
state — yield identical results for every sensor. -/
theorem c7_derived_props_deterministic
    (c1 c2 : SystemCoordinator) (d1 d2 : DailyDataCoordinator)
    (k : SensorInst) (dk : DailySensor)
    (hc : c1.data = c2.data) (hd : d1.data = d2.data) :
    sysName k c1 = sysName k c2 ∧ sysUniqueId k c1 = sysUniqueId k c2 ∧
    sysNativeValue k c1 = sysNativeValue k c2 ∧ sysDeviceInfo k c1 = sysDeviceInfo k c2 ∧
    dailyName dk d1 = dailyName dk d2 ∧ dailyUniqueId dk d1 = dailyUniqueId dk d2 ∧
    dailyNativeValue dk d1 = dailyNativeValue dk d2 ∧
    dailyDeviceInfo dk d1 = dailyDeviceInfo dk d2 := by
  unfold sysName sysUniqueId sysNativeValue sysDeviceInfo dailyName dailyUniqueId
    dailyNativeValue dailyDeviceInfo
  rw [hc, hd]
  exact ⟨rfl, rfl, rfl, rfl, rfl, rfl, rfl, rfl⟩

/-- C7 witness: two coordinators with the same cached data but opposite
`last_update_success` flags give the same `name`. -/
theorem c7_derived_props_deterministic_witness :
    sysName (SensorInst.homeEntity 0) ⟨some [wSystemC2], true⟩
      = sysName (SensorInst.homeEntity 0) ⟨some [wSystemC2], false⟩ :=
  (c7_derived_props_deterministic ⟨some [wSystemC2], true⟩ ⟨some [wSystemC2], false⟩
    wDailyCoord wDailyCoord (SensorInst.homeEntity 0) (DailySensor.efficiency "s" none)
    rfl rfl).1
